import Mathlib

/-!
Shallow embedding of `src/database/class.c` of the Rune compiler: the
template-class (tclass) registry, the signature matcher and specialization
pool, the default-class fast path, and the default method synthesizer
(`toString` / `dump`).  Entities referenced by opaque handles in the C code
(tclasses, classes) are modelled as indices into append-only lists held in a
`State` record; the externally owned datatype model is a small inductive.
All functions are direct translations of the C functions of the same name.
-/

namespace Rune

/-- Interned symbols (`utSym`) are modelled as strings; interning makes
symbol handle equality coincide with string equality. -/
abbrev Sym := String

abbrev TclassId := Nat
abbrev ClassId := Nat
abbrev Line := Nat

/-- The datatype model (`deDatatype`), owned by `datatype.c` (outside
`src/`).  Datatypes are interned in the C code, so handle equality is
structural equality; only the variants observed by `class.c` are
distinguished, all others collapse into `otherD`. -/
inductive Datatype where
  | uintD (width : Nat)
  | classD (c : ClassId)
  | tbdclassD (t : TclassId)
  | tclassD (t : TclassId)
  | tupleD (ts : List Datatype)
  | otherD (tag : Nat)
deriving Inhabited

/-- Structural decidable equality for `Datatype` (nested induction through
the tuple payload, so `deriving` cannot produce it). -/
def Datatype.decEq : (a b : Datatype) → Decidable (a = b)
  | .uintD x, .uintD y =>
      match Nat.decEq x y with
      | isTrue h => isTrue (by rw [h])
      | isFalse h => isFalse (by intro hh; cases hh; exact h rfl)
  | .classD x, .classD y =>
      match Nat.decEq x y with
      | isTrue h => isTrue (by rw [h])
      | isFalse h => isFalse (by intro hh; cases hh; exact h rfl)
  | .tbdclassD x, .tbdclassD y =>
      match Nat.decEq x y with
      | isTrue h => isTrue (by rw [h])
      | isFalse h => isFalse (by intro hh; cases hh; exact h rfl)
  | .tclassD x, .tclassD y =>
      match Nat.decEq x y with
      | isTrue h => isTrue (by rw [h])
      | isFalse h => isFalse (by intro hh; cases hh; exact h rfl)
  | .otherD x, .otherD y =>
      match Nat.decEq x y with
      | isTrue h => isTrue (by rw [h])
      | isFalse h => isFalse (by intro hh; cases hh; exact h rfl)
  | .tupleD xs, .tupleD ys =>
      match decEqList xs ys with
      | isTrue h => isTrue (by rw [h])
      | isFalse h => isFalse (by intro hh; cases hh; exact h rfl)
  | .uintD _, .classD _ => isFalse (by intro h; cases h)
  | .uintD _, .tbdclassD _ => isFalse (by intro h; cases h)
  | .uintD _, .tclassD _ => isFalse (by intro h; cases h)
  | .uintD _, .tupleD _ => isFalse (by intro h; cases h)
  | .uintD _, .otherD _ => isFalse (by intro h; cases h)
  | .classD _, .uintD _ => isFalse (by intro h; cases h)
  | .classD _, .tbdclassD _ => isFalse (by intro h; cases h)
  | .classD _, .tclassD _ => isFalse (by intro h; cases h)
  | .classD _, .tupleD _ => isFalse (by intro h; cases h)
  | .classD _, .otherD _ => isFalse (by intro h; cases h)
  | .tbdclassD _, .uintD _ => isFalse (by intro h; cases h)
  | .tbdclassD _, .classD _ => isFalse (by intro h; cases h)
  | .tbdclassD _, .tclassD _ => isFalse (by intro h; cases h)
  | .tbdclassD _, .tupleD _ => isFalse (by intro h; cases h)
  | .tbdclassD _, .otherD _ => isFalse (by intro h; cases h)
  | .tclassD _, .uintD _ => isFalse (by intro h; cases h)
  | .tclassD _, .classD _ => isFalse (by intro h; cases h)
  | .tclassD _, .tbdclassD _ => isFalse (by intro h; cases h)
  | .tclassD _, .tupleD _ => isFalse (by intro h; cases h)
  | .tclassD _, .otherD _ => isFalse (by intro h; cases h)
  | .tupleD _, .uintD _ => isFalse (by intro h; cases h)
  | .tupleD _, .classD _ => isFalse (by intro h; cases h)
  | .tupleD _, .tbdclassD _ => isFalse (by intro h; cases h)
  | .tupleD _, .tclassD _ => isFalse (by intro h; cases h)
  | .tupleD _, .otherD _ => isFalse (by intro h; cases h)
  | .otherD _, .uintD _ => isFalse (by intro h; cases h)
  | .otherD _, .classD _ => isFalse (by intro h; cases h)
  | .otherD _, .tbdclassD _ => isFalse (by intro h; cases h)
  | .otherD _, .tclassD _ => isFalse (by intro h; cases h)
  | .otherD _, .tupleD _ => isFalse (by intro h; cases h)
where
  decEqList : (a b : List Datatype) → Decidable (a = b)
    | [], [] => isTrue rfl
    | x :: xs, y :: ys =>
        match Datatype.decEq x y, decEqList xs ys with
        | isTrue h1, isTrue h2 => isTrue (by rw [h1, h2])
        | isFalse h1, _ => isFalse (by intro hh; injection hh; contradiction)
        | _, isFalse h2 => isFalse (by intro hh; injection hh; contradiction)
    | [], _ :: _ => isFalse (by intro h; cases h)
    | _ :: _, [] => isFalse (by intro h; cases h)

instance : DecidableEq Datatype := Datatype.decEq

/-- The `deDatatypeType` tag of a datatype (`DE_TYPE_UINT`, `DE_TYPE_CLASS`,
`DE_TYPE_TBDCLASS`, ...). -/
inductive DatatypeType where
  | uintT | classT | tbdclassT | tclassT | tupleT | otherT
deriving DecidableEq

/-- `deDatatypeGetType`. -/
def deDatatypeGetType : Datatype → DatatypeType
  | .uintD _ => .uintT
  | .classD _ => .classT
  | .tbdclassD _ => .tbdclassT
  | .tclassD _ => .tclassT
  | .tupleD _ => .tupleT
  | .otherD _ => .otherT

/-- `deDatatypeGetClass`: the class of a `DE_TYPE_CLASS` datatype (only
invoked on such datatypes in `class.c`). -/
def deDatatypeGetClass : Datatype → ClassId
  | .classD c => c
  | _ => 0

/-- `deDatatypeGetTclass`: the tclass of a `DE_TYPE_TBDCLASS` (or tclass)
datatype. -/
def deDatatypeGetTclass : Datatype → TclassId
  | .tbdclassD t => t
  | .tclassD t => t
  | _ => 0

/-- `deUintDatatypeCreate`. -/
def deUintDatatypeCreate (width : Nat) : Datatype := .uintD width

/-- `deTupleDatatypeCreate`. -/
def deTupleDatatypeCreate (ts : List Datatype) : Datatype := .tupleD ts

/-- `deClassDatatypeCreate`. -/
def deClassDatatypeCreate (c : ClassId) : Datatype := .classD c

/-- `deTclassDatatypeCreate`. -/
def deTclassDatatypeCreate (t : TclassId) : Datatype := .tclassD t

/-- `deVariableType`: only the parameter/local distinction is observed in
`class.c`. -/
inductive VariableType where
  | parameterV | localV
deriving DecidableEq, Inhabited

/-- A `deVariable`: a constructor parameter or a class data member.  Field
order follows the `deVariableCreate` argument order; `isType`,
`inTclassSignature`, `datatype` and `instantiated` are set by separate
setters in the C code and default to their zero values. -/
structure Variable where
  varType : VariableType
  isConst : Bool
  sym : Sym
  generated : Bool
  line : Line := 0
  isType : Bool := false
  inTclassSignature : Bool := false
  datatype : Datatype := .otherD 0
  instantiated : Bool := false
deriving DecidableEq, Inhabited

/-- A `deSignature`: the ordered actual argument datatypes of one
constructor call.  `tclass` stands for
`deFunctionGetTclass (deSignatureGetFunction sig)` (a constructor function
owns exactly one tclass), `cachedClass` for `deSignatureGetClass`. -/
structure Signature where
  tclass : TclassId
  types : List Datatype
  cachedClass : Option ClassId := none
deriving DecidableEq, Inhabited

/-- `deSignatureGetiType`. -/
def deSignatureGetiType (sig : Signature) (i : Nat) : Datatype :=
  sig.types.getD i (.otherD 0)

/-- A function declared in a constructor sub-block (method or inner-class
constructor).  `class.c` only observes its name symbol
(`deIdentGetSym (deFunctionGetFirstIdent f)`) and its line. -/
structure FuncDecl where
  sym : Sym
  line : Line
deriving DecidableEq, Inhabited

/-- `deIdentType`: only `DE_IDENT_FUNCTION` is distinguished here. -/
inductive IdentType where
  | functionI | otherI
deriving DecidableEq, Inhabited

/-- A `deIdent` created inside a class body block.  `target` records which
constructor-block function the ident was appended to
(`deFunctionAppendIdent`), i.e. the declaration it forwards to. -/
structure Ident where
  identType : IdentType
  sym : Sym
  line : Line
  target : Nat
deriving DecidableEq, Inhabited

/-- A `deClass`: one concrete specialization of a tclass.  `bodyVars` and
`bodyIdents` are the variables and identifiers of its sub-block;
`firstSignature` is `deClassGetFirstSignature`, the founding signature
recorded when the class is bound to the signature that created it. -/
structure ClassC where
  owner : TclassId
  number : Nat
  refWidth : Nat
  line : Line := 0
  datatype : Datatype := .otherD 0
  bodyVars : List Variable := []
  bodyIdents : List Ident := []
  firstSignature : Option Signature := none
deriving DecidableEq, Inhabited

/-- A `deTclass`: a template class.  `ctorVars` and `ctorFuncs` are the
variables and functions of the constructor sub-block
(`deFunctionGetSubBlock (deTclassGetFunction tclass)`); `classes` is the
ordered specialization list maintained by `deTclassAppendClass`. -/
structure Tclass where
  refWidth : Nat
  line : Line
  datatype : Datatype := .otherD 0
  ctorLinkage : Nat := 0
  ctorVars : List Variable := []
  ctorFuncs : List FuncDecl := []
  numClasses : Nat := 0
  hasDefaultClass : Bool := false
  classes : List ClassId := []
deriving DecidableEq, Inhabited

/-- The global root (`deTheRoot`): append-only arenas of tclasses and
classes, addressed by index handles. -/
structure State where
  tclasses : List Tclass := []
  classes : List ClassC := []
deriving DecidableEq, Inhabited

/-- Handle dereference for tclasses. -/
def getTclass (s : State) (t : TclassId) : Tclass :=
  s.tclasses.getD t default

/-- Handle dereference for classes. -/
def getClass (s : State) (c : ClassId) : ClassC :=
  s.classes.getD c default

/-- In-place update of a tclass record. -/
def setTclass (s : State) (t : TclassId) (tc : Tclass) : State :=
  { s with tclasses := s.tclasses.set t tc }

/-- In-place update of a class record. -/
def setClass (s : State) (c : ClassId) (cl : ClassC) : State :=
  { s with classes := s.classes.set c cl }

/-- `deClassGetTclass`. -/
def deClassGetTclass (s : State) (c : ClassId) : TclassId :=
  (getClass s c).owner

/-- `deTclassGetFirstClass`: head of the specialization list (null when the
list is empty). -/
def deTclassGetFirstClass (s : State) (t : TclassId) : Option ClassId :=
  (getTclass s t).classes.head?

/-- The external constructor function as far as `deTclassCreate` observes
it: linkage, builtin flag, and the variables and functions of its
sub-block.  `blockLine` is `deBlockGetLine` of that sub-block. -/
structure Constructor where
  linkage : Nat := 0
  builtin : Bool := false
  blockLine : Line := 0
  vars : List Variable := []
  funcs : List FuncDecl := []
deriving Inhabited

/-- `addDestroyMethod`: appends an (empty-bodied) `destroy` destructor
function to the constructor sub-block. -/
def addDestroyMethod (funcs : List FuncDecl) (blockLine : Line) : List FuncDecl :=
  funcs ++ [{ sym := "destroy", line := blockLine }]

/-- `deTclassCreate`: allocates a tclass for a constructor, builds its
distinguishing datatype, adds the default destructor unless the constructor
is builtin, and registers the tclass in the global root. -/
def deTclassCreate (s : State) (ctor : Constructor) (refWidth : Nat) (line : Line) :
    State × TclassId :=
  let tid := s.tclasses.length
  let funcs := if ctor.builtin then ctor.funcs else addDestroyMethod ctor.funcs ctor.blockLine
  let tclass : Tclass :=
    { refWidth := refWidth, line := line, datatype := deTclassDatatypeCreate tid,
      ctorLinkage := ctor.linkage, ctorVars := ctor.vars, ctorFuncs := funcs }
  ({ s with tclasses := s.tclasses ++ [tclass] }, tid)

/-- `datatypesCompatible`: datatypes may differ only when the new one is a
`TBDCLASS` placeholder and the old one is an instance of that tclass. -/
def datatypesCompatible (s : State) (newDatatype oldDatatype : Datatype) : Bool :=
  if newDatatype = oldDatatype then
    true
  else
    let newType := deDatatypeGetType newDatatype
    let oldType := deDatatypeGetType oldDatatype
    if newType ≠ DatatypeType.tbdclassT ∨ oldType ≠ DatatypeType.classT then
      false
    else
      let oldTclass := deClassGetTclass s (deDatatypeGetClass oldDatatype)
      decide (oldTclass = deDatatypeGetTclass newDatatype)

/-- Loop body of `classSignaturesMatch`: walk the constructor block
variables with the running parameter index `xParam`. -/
def classSignaturesMatchGo (s : State) (newSignature oldSignature : Signature) :
    List Variable → Nat → Bool
  | [], _ => true
  | p :: rest, xParam =>
    if p.varType ≠ VariableType.parameterV then
      true
    else if p.inTclassSignature then
      if !(datatypesCompatible s (deSignatureGetiType newSignature xParam)
            (deSignatureGetiType oldSignature xParam)) then
        false
      else
        classSignaturesMatchGo s newSignature oldSignature rest (xParam + 1)
    else
      classSignaturesMatchGo s newSignature oldSignature rest (xParam + 1)

/-- `classSignaturesMatch`: two signatures generate the same class when the
datatypes of the constructor parameters marked `inTclassSignature` are
compatible. -/
def classSignaturesMatch (s : State) (newSignature oldSignature : Signature) : Bool :=
  classSignaturesMatchGo s newSignature oldSignature
    (getTclass s newSignature.tclass).ctorVars 0

/-- Loop of `findExistingClass` over the specialization list; hitting a
class without a founding signature asserts `deTclassHasDefaultClass`
(`utAssert`, a fatal abort modelled as `Except.error`). -/
def findExistingClassGo (s : State) (signature : Signature) (tclass : Tclass) :
    List ClassId → Except Unit (Option ClassId)
  | [] => .ok none
  | c :: rest =>
    match (getClass s c).firstSignature with
    | none =>
        if tclass.hasDefaultClass then .ok (some c) else .error ()
    | some otherSignature =>
        if classSignaturesMatch s signature otherSignature then .ok (some c)
        else findExistingClassGo s signature tclass rest

/-- `findExistingClass`: scan the tclass's specializations in creation
order for one whose founding signature matches. -/
def findExistingClass (s : State) (signature : Signature) : Except Unit (Option ClassId) :=
  let tclass := getTclass s signature.tclass
  findExistingClassGo s signature tclass tclass.classes

/-- `classCreate`: allocate a specialization numbered
`deTclassGetNumClasses + 1`, copy the reference width, append it to the
tclass's list, and give it a compiler-generated `nextFree` variable typed
as an unsigned integer of the reference width. -/
def classCreate (s : State) (t : TclassId) : State × ClassId :=
  let tclass := getTclass s t
  let cid := s.classes.length
  let numClass := tclass.numClasses + 1
  let selfType := deClassDatatypeCreate cid
  let nextFree : Variable :=
    { varType := .localV, isConst := false, sym := "nextFree", generated := true,
      line := 0, datatype := deUintDatatypeCreate tclass.refWidth, instantiated := true }
  let theClass : ClassC :=
    { owner := t, number := numClass, refWidth := tclass.refWidth, line := tclass.line,
      datatype := selfType, bodyVars := [nextFree], bodyIdents := [],
      firstSignature := none }
  let s1 : State := { s with classes := s.classes ++ [theClass] }
  let s2 := setTclass s1 t
    { tclass with numClasses := numClass, classes := tclass.classes ++ [cid] }
  (s2, cid)

/-- `deClassCreate`: memoized fast path on the signature, then scan for an
existing matching specialization, then allocate a new one. -/
def deClassCreate (s : State) (t : TclassId) (signature : Signature) :
    Except Unit (State × ClassId) :=
  match signature.cachedClass with
  | some c => .ok (s, c)
  | none =>
    match findExistingClass s signature with
    | .error e => .error e
    | .ok (some theClass) => .ok (s, theClass)
    | .ok none => .ok (classCreate s t)

/-- Record the founding signature on a freshly created class
(`deClassAppendSignature` performed by the binder right after creation;
`deClassGetFirstSignature` then returns it). -/
def setClassFoundingSignature (s : State) (c : ClassId) (sig : Signature) : State :=
  setClass s c { getClass s c with firstSignature := some sig }

/-- Modelled from the spec: the binder-side linking around `deClassCreate`,
which is not part of `src/database/class.c`.  Per the spec, a signature
"may cache, at most once, a resolved ConcreteClass reference (first
successful resolution wins)", and each specialization's founding signature
is "the signature used when it was created"; so after `deClassCreate` the
binder records the signature as founding signature exactly when a new class
was allocated, and writes the signature's cache if it is still empty. -/
def resolveOrCreateClass (s : State) (t : TclassId) (sig : Signature) :
    Except Unit (State × Signature × ClassId) :=
  match deClassCreate s t sig with
  | .error e => .error e
  | .ok (s1, c) =>
    let s2 := if s.classes.length < s1.classes.length
              then setClassFoundingSignature s1 c sig else s1
    let sig1 := if sig.cachedClass = none then { sig with cachedClass := some c } else sig
    .ok (s2, sig1, c)

/-- `tclassHasTemplateParameters`: true when some constructor-block
variable is marked `inTclassSignature`. -/
def tclassHasTemplateParameters (tclass : Tclass) : Bool :=
  tclass.ctorVars.any (fun v => v.inTclassSignature)

/-- `defaultClassCreate`: allocate the default specialization.  Unlike
`classCreate` it does not copy the reference width, types `nextFree` as the
class's own self type, and creates forwarding identifiers in its body for
every function of the constructor block, appended back to the original
function. -/
def defaultClassCreate (s : State) (t : TclassId) : State × ClassId :=
  let tclass := getTclass s t
  let cid := s.classes.length
  let numClasses := tclass.numClasses + 1
  let selfType := deClassDatatypeCreate cid
  let nextFree : Variable :=
    { varType := .localV, isConst := false, sym := "nextFree", generated := false,
      line := 0, datatype := selfType, instantiated := true }
  let idents := (List.range tclass.ctorFuncs.length).map (fun i =>
    let f := tclass.ctorFuncs.getD i default
    { identType := IdentType.functionI, sym := f.sym, line := f.line, target := i })
  let theClass : ClassC :=
    { owner := t, number := numClasses, refWidth := 0, line := tclass.line,
      datatype := selfType, bodyVars := [nextFree], bodyIdents := idents,
      firstSignature := none }
  let s1 : State := { s with classes := s.classes ++ [theClass] }
  let s2 := setTclass s1 t
    { tclass with numClasses := numClasses, classes := tclass.classes ++ [cid] }
  (s2, cid)

/-- `deTclassGetDefaultClass`: return the cached default class, or create
it (via `classCreate` — this is the call the C code makes, even though
`defaultClassCreate` sits unused directly above it) when the tclass has no
template parameters; null when it has some.  The `utAssert` inside repeats
the guard `deTclassGetFirstClass(tclass) == deClassNull` and can never
fail. -/
def deTclassGetDefaultClass (s : State) (t : TclassId) : State × Option ClassId :=
  if (getTclass s t).hasDefaultClass = false then
    if tclassHasTemplateParameters (getTclass s t) then
      (s, none)
    else
      let s1 := if deTclassGetFirstClass s t = none then (classCreate s t).1 else s
      let s2 := setTclass s1 t { getTclass s1 t with hasDefaultClass := true }
      (s2, deTclassGetFirstClass s2 t)
  else
    (s, deTclassGetFirstClass s t)

/-- The operations of this subsystem that mutate the global state, for
stating whole-run invariants.  A failed `utAssert` aborts the process, so
an erroring resolve step leaves no observable successor state; it is
modelled as leaving the state unchanged. -/
inductive Op where
  | createTclassOp (ctor : Constructor) (refWidth : Nat) (line : Line)
  | resolveOp (t : TclassId) (sig : Signature)
  | getDefaultOp (t : TclassId)

/-- One operation applied to the state. -/
def stepOp (s : State) : Op → State
  | .createTclassOp ctor refWidth line => (deTclassCreate s ctor refWidth line).1
  | .resolveOp t sig =>
      match resolveOrCreateClass s t sig with
      | .ok r => r.1
      | .error _ => s
  | .getDefaultOp t => (deTclassGetDefaultClass s t).1

/-- A whole run of operations. -/
def runOps (s : State) : List Op → State
  | [] => s
  | op :: ops => runOps (stepOp s op) ops

/-- The `deExpressionType` tags used by `class.c`. -/
inductive ExprType where
  | tupleE | identE | dotE | castE | uinttypeE | modE | callE | listE | stringE
deriving DecidableEq, Inhabited

/-- A `deExpression` tree node: type tag, child list, ident symbol, width
(for `DE_EXPR_UINTTYPE`), bound datatype, string value (for string
literals), and source line. -/
inductive DExpr where
  | mk (ty : ExprType) (children : List DExpr) (sym : Sym) (width : Nat)
       (datatype : Option Datatype) (strVal : String) (line : Line)

instance : Inhabited DExpr := ⟨.mk .identE [] "" 0 none "" 0⟩

/-- `deExpressionGetType`. -/
def DExpr.ty : DExpr → ExprType
  | .mk t _ _ _ _ _ _ => t

/-- Child list of an expression (`deForeachExpressionExpression` order). -/
def DExpr.children : DExpr → List DExpr
  | .mk _ ch _ _ _ _ _ => ch

/-- `deExpressionGetName` (the `utSym` of an ident expression). -/
def DExpr.sym : DExpr → Sym
  | .mk _ _ sy _ _ _ _ => sy

/-- Width of a `DE_EXPR_UINTTYPE` expression. -/
def DExpr.width : DExpr → Nat
  | .mk _ _ _ w _ _ _ => w

/-- `deExpressionGetDatatype`. -/
def DExpr.datatype : DExpr → Option Datatype
  | .mk _ _ _ _ dt _ _ => dt

/-- String value of a string literal expression. -/
def DExpr.strVal : DExpr → String
  | .mk _ _ _ _ _ sv _ => sv

/-- `deExpressionGetLine`. -/
def DExpr.line : DExpr → Line
  | .mk _ _ _ _ _ _ ln => ln

/-- `deExpressionSetDatatype` (functional update). -/
def DExpr.setDatatype : DExpr → Datatype → DExpr
  | .mk t ch sy w _ sv ln, dt => .mk t ch sy w (some dt) sv ln

/-- `deExpressionSetWidth` (functional update). -/
def DExpr.setWidth : DExpr → Nat → DExpr
  | .mk t ch sy _ dt sv ln, w => .mk t ch sy w dt sv ln

/-- `deExpressionCreate`. -/
def deExpressionCreate (ty : ExprType) (line : Line) : DExpr :=
  .mk ty [] "" 0 none "" line

/-- `deIdentExpressionCreate`. -/
def deIdentExpressionCreate (sym : Sym) (line : Line) : DExpr :=
  .mk .identE [] sym 0 none "" line

/-- `deBinaryExpressionCreate`. -/
def deBinaryExpressionCreate (ty : ExprType) (a b : DExpr) (line : Line) : DExpr :=
  .mk ty [a, b] "" 0 none "" line

/-- `deStringExpressionCreate`. -/
def deStringExpressionCreate (strVal : String) (line : Line) : DExpr :=
  .mk .stringE [] "" 0 none strVal line

/-- `deCStringExpressionCreate`. -/
def deCStringExpressionCreate (strVal : String) (line : Line) : DExpr :=
  .mk .stringE [] "" 0 none strVal line

/-- `deExpressionGetType`. -/
def deExpressionGetType (e : DExpr) : ExprType := e.ty

/-- `deExpressionGetLine`. -/
def deExpressionGetLine (e : DExpr) : Line := e.line

/-- `deExpressionGetLastExpression`: last child. -/
def deExpressionGetLastExpression (e : DExpr) : DExpr :=
  e.children.getLastD default

/-- `deExpressionGetName`. -/
def deExpressionGetName (e : DExpr) : Sym := e.sym

/-- `utSymGetName`: symbols are modelled as their names. -/
def utSymGetName (sym : Sym) : String := sym

/-- `deCopyExpression`: a deep copy, which in a value model is the value
itself. -/
def deCopyExpression (e : DExpr) : DExpr := e

/-- Per-member body of the `buildClassTupleExpression` loop: the
`self.member` access expression, cast to `u32` when the member datatype is
a class reference. -/
def classTupleMemberExpr (selfExpr : DExpr) (v : Variable) : DExpr :=
  let datatype := v.datatype
  let line := v.line
  let varExpr := deIdentExpressionCreate v.sym line
  let newSelfExpr := deCopyExpression selfExpr
  let dotExpr :=
    (deBinaryExpressionCreate .dotE newSelfExpr varExpr line).setDatatype datatype
  if deDatatypeGetType datatype ≠ DatatypeType.classT then
    dotExpr
  else
    let uint32Datatype := deUintDatatypeCreate 32
    let uintTypeExpr :=
      ((deExpressionCreate .uinttypeE line).setWidth 32).setDatatype uint32Datatype
    (deBinaryExpressionCreate .castE uintTypeExpr dotExpr line).setDatatype uint32Datatype

/-- `buildClassTupleExpression`: a tuple of `self.member` accesses for the
class-body variables that are neither type-only nor compiler-generated, in
declaration order, with class-typed members cast to `u32`; the tuple
datatype collects the member datatypes. -/
def buildClassTupleExpression (classBlockVars : List Variable) (selfExpr : DExpr) : DExpr :=
  let line := deExpressionGetLine selfExpr
  let members := classBlockVars.filter (fun v => !v.isType && !v.generated)
  let children := members.map (classTupleMemberExpr selfExpr)
  let types := members.map (fun v => v.datatype)
  .mk .tupleE children "" 0 (some (deTupleDatatypeCreate types)) "" line

/-- One `name = <element>` piece of the print format: the member name is
read from the ident under the dot (under the cast, for cast children), and
`deAppendOneFormatElement` — an external formatter from `util.c`, passed
here as a parameter — supplies the format slot for the value. -/
def formatChildPiece (appendOneFormatElement : DExpr → String) (child : DExpr) : String :=
  let identExpr :=
    if deExpressionGetType child = ExprType.castE then
      deExpressionGetLastExpression (deExpressionGetLastExpression child)
    else
      deExpressionGetLastExpression child
  utSymGetName (deExpressionGetName identExpr) ++ " = " ++ appendOneFormatElement child

/-- Loop of `findObjectPrintFormat` over the tuple children, carrying the
buffer and the `firstTime` flag. -/
def findObjectPrintFormatGo (appendOneFormatElement : DExpr → String) :
    List DExpr → String → Bool → String
  | [], format, _ => format
  | child :: rest, format, firstTime =>
    let format1 := if !firstTime then format ++ ", " else format
    findObjectPrintFormatGo appendOneFormatElement rest
      (format1 ++ formatChildPiece appendOneFormatElement child) false

/-- `findObjectPrintFormat`: brace-delimited, comma-separated
`name = <slot>` pairs for the tuple children. -/
def findObjectPrintFormat (appendOneFormatElement : DExpr → String) (tupleExpr : DExpr) :
    String :=
  findObjectPrintFormatGo appendOneFormatElement tupleExpr.children "\x7b" true ++ "\x7d"

/-- The `deFunctionType` tags used by `class.c`. -/
inductive FunctionType where
  | plainF | destructorF
deriving DecidableEq, Inhabited

/-- The `deStatementType` tags used by `class.c`. -/
inductive StatementType where
  | returnS | printS
deriving DecidableEq, Inhabited

/-- A `deStatement` with its attached expression. -/
structure Statement where
  ty : StatementType
  expr : Option DExpr

/-- A generated `deFunction`: name, type, linkage, line, the variables of
its sub-block (parameters) and the statements of its sub-block. -/
structure DFunction where
  name : Sym
  funcType : FunctionType
  linkage : Nat
  line : Line
  paramVars : List Variable
  statements : List Statement

/-- `deGenerateDefaultToStringMethod`: a `toString(self)` method whose body
is a single return of `<format> % <member tuple>`.  The external
`deAppendOneFormatElement` formatter is passed as a parameter; insertion of
the created function into the class block identifier table is performed by
the external `deFunctionCreate`. -/
def deGenerateDefaultToStringMethod (appendOneFormatElement : DExpr → String)
    (s : State) (theClass : ClassId) : DFunction :=
  let classBlockVars := (getClass s theClass).bodyVars
  let funcName : Sym := "toString"
  let linkage := (getTclass s (deClassGetTclass s theClass)).ctorLinkage
  let line := (getClass s theClass).line
  let selfParam : Variable :=
    { varType := .parameterV, isConst := true, sym := "self", generated := false,
      line := line }
  let selfExpr :=
    (deIdentExpressionCreate "self" line).setDatatype (deClassDatatypeCreate theClass)
  let tupleExpr := buildClassTupleExpression classBlockVars selfExpr
  let format := findObjectPrintFormat appendOneFormatElement tupleExpr
  let formatExpr := deStringExpressionCreate format line
  let modExpr := deBinaryExpressionCreate .modE formatExpr tupleExpr line
  { name := funcName, funcType := .plainF, linkage := linkage, line := 0,
    paramVars := [selfParam],
    statements := [{ ty := .returnS, expr := some modExpr }] }

/-- `deGenerateDefaultDumpMethod`: a `dump(self)` method whose body is a
single print statement of `self.toString()` (through an ident expression
carrying only the name `toString`) followed by the string `"\n"`. -/
def deGenerateDefaultDumpMethod (s : State) (theClass : ClassId) : DFunction :=
  let line := (getClass s theClass).line
  let funcName : Sym := "dump"
  let linkage := (getTclass s (deClassGetTclass s theClass)).ctorLinkage
  let selfParam : Variable :=
    { varType := .parameterV, isConst := true, sym := "self", generated := false,
      line := line }
  let selfExpr :=
    (deIdentExpressionCreate "self" line).setDatatype (deClassDatatypeCreate theClass)
  let toStringExpr := deIdentExpressionCreate "toString" line
  let accessExpr := deBinaryExpressionCreate .dotE selfExpr toStringExpr line
  let paramsExpr := deExpressionCreate .listE line
  let callExpr := deBinaryExpressionCreate .callE accessExpr paramsExpr line
  let newlineExpr := deCStringExpressionCreate "\n" line
  let printArgsExpr := deBinaryExpressionCreate .listE callExpr newlineExpr line
  { name := funcName, funcType := .plainF, linkage := linkage, line := line,
    paramVars := [selfParam],
    statements := [{ ty := .printS, expr := some printArgsExpr }] }

/-! List access helpers for the handle arenas. -/

theorem getD_append_lt {α : Type} (l l2 : List α) (i : Nat) (d : α) (h : i < l.length) :
    (l ++ l2).getD i d = l.getD i d := by
  simp [List.getD, List.getElem?_append, h]

theorem getD_append_len {α : Type} (l : List α) (a d : α) :
    (l ++ [a]).getD l.length d = a := by
  simp [List.getD, List.getElem?_append]

theorem getD_set_self {α : Type} (l : List α) (i : Nat) (a d : α) (h : i < l.length) :
    (l.set i a).getD i d = a := by
  simp [List.getD, List.getElem?_set_self, h]

theorem getD_set_ne {α : Type} (l : List α) (i j : Nat) (a d : α) (h : j ≠ i) :
    (l.set i a).getD j d = l.getD j d := by
  simp [List.getD, List.getElem?_set_ne (Ne.symm h)]

theorem getD_ge {α : Type} (l : List α) (i : Nat) (d : α) (h : ¬ i < l.length) :
    l.getD i d = d := by
  simp [List.getD, List.getElem?_eq_none (by omega : l.length ≤ i)]

/-! Property vocabulary used by the theorem statements. -/

/-- The part of the constructor block variables walked by
`classSignaturesMatch`: the leading run of parameters. -/
def paramRun (vars : List Variable) : List Variable :=
  vars.takeWhile (fun v => v.varType = VariableType.parameterV)

/-! Theorems. -/

/-- C3: two datatypes are compatible exactly when they are identical, or
the new one is a TBDCLASS placeholder for some template T and the old one
is a concrete class owned by T; in particular a concrete-class new
datatype is never compatible with a placeholder old datatype. -/
theorem c3_datatypes_compatible (s : State) (newDatatype oldDatatype : Datatype) :
    (datatypesCompatible s newDatatype oldDatatype = true ↔
      newDatatype = oldDatatype ∨
        ∃ t c, newDatatype = Datatype.tbdclassD t ∧ oldDatatype = Datatype.classD c ∧
          deClassGetTclass s c = t) ∧
    (∀ c t, datatypesCompatible s (Datatype.classD c) (Datatype.tbdclassD t) = false) := by
  constructor
  · cases newDatatype <;> cases oldDatatype <;>
      simp [datatypesCompatible, deDatatypeGetType, deDatatypeGetClass,
        deDatatypeGetTclass]
  · intro c t
    simp [datatypesCompatible, deDatatypeGetType]

/-- The walk of `classSignaturesMatchGo` succeeds exactly when every
`inTclassSignature`-flagged variable of the leading parameter run has
compatible datatypes at its position (shifted by the start index). -/
theorem classSignaturesMatchGo_characterization (s : State) (newSignature oldSignature : Signature) :
    ∀ (vars : List Variable) (x : Nat),
      classSignaturesMatchGo s newSignature oldSignature vars x = true ↔
        ∀ i, i < (paramRun vars).length →
          ((paramRun vars).getD i default).inTclassSignature = true →
          datatypesCompatible s (deSignatureGetiType newSignature (x + i))
            (deSignatureGetiType oldSignature (x + i)) = true
  | [], x => by simp [classSignaturesMatchGo, paramRun]
  | v :: rest, x => by
    have harith : ∀ j : Nat, x + (j + 1) = (x + 1) + j := by omega
    by_cases hp : v.varType = VariableType.parameterV
    · have htw : paramRun (v :: rest) = v :: paramRun rest := by
        simp [paramRun, List.takeWhile_cons, hp]
      by_cases hf : v.inTclassSignature
      · by_cases hc : datatypesCompatible s (deSignatureGetiType newSignature x)
            (deSignatureGetiType oldSignature x)
        · rw [classSignaturesMatchGo, if_neg (by simp [hp]), if_pos hf,
            if_neg (by simp [hc])]
          rw [classSignaturesMatchGo_characterization s newSignature oldSignature rest (x+1), htw]
          constructor
          · intro h i hi hflag
            cases i with
            | zero => simpa using hc
            | succ j =>
              rw [harith j]
              exact h j (by simpa using hi) (by simpa using hflag)
          · intro h j hj hflag
            have := h (j+1) (by simpa using hj) (by simpa using hflag)
            rwa [harith j] at this
        · rw [classSignaturesMatchGo, if_neg (by simp [hp]), if_pos hf,
            if_pos (by simpa using hc)]
          simp only [Bool.false_eq_true, false_iff]
          intro h
          have h0 := h 0 (by simp [htw]) (by rw [htw]; simpa using hf)
          exact hc (by simpa using h0)
      · rw [classSignaturesMatchGo, if_neg (by simp [hp]), if_neg hf]
        rw [classSignaturesMatchGo_characterization s newSignature oldSignature rest (x+1), htw]
        constructor
        · intro h i hi hflag
          cases i with
          | zero =>
            simp only [List.getD_cons_zero] at hflag
            exact absurd hflag (by simpa using hf)
          | succ j =>
            rw [harith j]
            exact h j (by simpa using hi) (by simpa using hflag)
        · intro h j hj hflag
          have := h (j+1) (by simpa using hj) (by simpa using hflag)
          rwa [harith j] at this
    · rw [classSignaturesMatchGo, if_pos (by simp [hp])]
      have htw : paramRun (v :: rest) = [] := by
        simp [paramRun, List.takeWhile_cons, hp]
      simp [htw]

/-- The walk never looks past the leading parameter run: running it on the
full variable list and on the parameter run alone gives the same answer. -/
theorem classSignaturesMatchGo_paramRun (s : State) (newSignature oldSignature : Signature) :
    ∀ (vars : List Variable) (x : Nat),
      classSignaturesMatchGo s newSignature oldSignature vars x =
        classSignaturesMatchGo s newSignature oldSignature (paramRun vars) x
  | [], x => by simp [paramRun]
  | v :: rest, x => by
    by_cases hp : v.varType = VariableType.parameterV
    · have htw : paramRun (v :: rest) = v :: paramRun rest := by
        simp [paramRun, List.takeWhile_cons, hp]
      rw [htw]
      by_cases hf : v.inTclassSignature
      · by_cases hc : datatypesCompatible s (deSignatureGetiType newSignature x)
            (deSignatureGetiType oldSignature x)
        · rw [classSignaturesMatchGo, if_neg (by simp [hp]), if_pos hf,
            if_neg (by simp [hc]),
            classSignaturesMatchGo, if_neg (by simp [hp]), if_pos hf,
            if_neg (by simp [hc])]
          exact classSignaturesMatchGo_paramRun s newSignature oldSignature rest (x+1)
        · rw [classSignaturesMatchGo, if_neg (by simp [hp]), if_pos hf,
            if_pos (by simpa using hc),
            classSignaturesMatchGo, if_neg (by simp [hp]), if_pos hf,
            if_pos (by simpa using hc)]
      · rw [classSignaturesMatchGo, if_neg (by simp [hp]), if_neg hf,
          classSignaturesMatchGo, if_neg (by simp [hp]), if_neg hf]
        exact classSignaturesMatchGo_paramRun s newSignature oldSignature rest (x+1)
    · have htw : paramRun (v :: rest) = [] := by
        simp [paramRun, List.takeWhile_cons, hp]
      rw [htw]
      show classSignaturesMatchGo s newSignature oldSignature (v :: rest) x = true
      rw [classSignaturesMatchGo, if_pos (by simp [hp])]

/-- C2: the signature-match test walks the constructor variables in
lock-step, compares only the leading parameter run, demands compatibility
exactly at the `inTclassSignature`-flagged positions, and ignores unflagged
parameters; it is characterized by compatibility at every flagged position
of the parameter run, and it computes the same answer on the parameter run
alone as on the full declaration list. -/
theorem c2_signature_match_rule (s : State) (newSignature oldSignature : Signature) :
    (classSignaturesMatch s newSignature oldSignature = true ↔
      ∀ i, i < (paramRun (getTclass s newSignature.tclass).ctorVars).length →
        ((paramRun (getTclass s newSignature.tclass).ctorVars).getD i default).inTclassSignature = true →
        datatypesCompatible s (deSignatureGetiType newSignature i)
          (deSignatureGetiType oldSignature i) = true) ∧
    (classSignaturesMatch s newSignature oldSignature =
      classSignaturesMatchGo s newSignature oldSignature
        (paramRun (getTclass s newSignature.tclass).ctorVars) 0) := by
  constructor
  · rw [classSignaturesMatch,
      classSignaturesMatchGo_characterization s newSignature oldSignature
        (getTclass s newSignature.tclass).ctorVars 0]
    constructor
    · intro h i hi hflag
      have := h i hi hflag
      simpa using this
    · intro h i hi hflag
      simpa using h i hi hflag
  · rw [classSignaturesMatch]
    exact classSignaturesMatchGo_paramRun s newSignature oldSignature
      (getTclass s newSignature.tclass).ctorVars 0

/-- If every class before `c` in the scan list carries a non-matching
founding signature and `c` carries none, the scan stops at `c`: it returns
`c` when the tclass is flagged as having a default class and aborts
(`utAssert`) otherwise. -/
theorem findExistingClassGo_reaches (s : State) (signature : Signature) (tclass : Tclass)
    (c : ClassId) (post : List ClassId)
    (hnone : (getClass s c).firstSignature = none) :
    ∀ pre : List ClassId,
      (∀ d ∈ pre, ∃ fs, (getClass s d).firstSignature = some fs ∧
          classSignaturesMatch s signature fs = false) →
      findExistingClassGo s signature tclass (pre ++ c :: post) =
        if tclass.hasDefaultClass then .ok (some c) else .error ()
  | [], _ => by
    rw [List.nil_append]
    simp only [findExistingClassGo, hnone]
  | d :: pre, hpre => by
    obtain ⟨fs, hfs, hmatch⟩ := hpre d (by simp)
    rw [List.cons_append]
    simp only [findExistingClassGo, hfs, hmatch]
    exact findExistingClassGo_reaches s signature tclass c post hnone pre
      (fun e he => hpre e (by simp [he]))

/-- C10: when the scan over a template's specializations reaches a
specialization with no founding signature, that specialization is returned
immediately for every query signature, with no type comparison; the code
first asserts (fatal abort otherwise) that the owning template is flagged
as having a default class. -/
theorem c10_signatureless_class_matches_all (s : State) (signature : Signature)
    (pre post : List ClassId) (c : ClassId)
    (hsplit : (getTclass s signature.tclass).classes = pre ++ c :: post)
    (hnone : (getClass s c).firstSignature = none)
    (hpre : ∀ d ∈ pre, ∃ fs, (getClass s d).firstSignature = some fs ∧
        classSignaturesMatch s signature fs = false) :
    findExistingClass s signature =
      if (getTclass s signature.tclass).hasDefaultClass then .ok (some c)
      else .error () := by
  rw [findExistingClass, hsplit]
  exact findExistingClassGo_reaches s signature (getTclass s signature.tclass) c post
    hnone pre hpre

/-- Concrete fixture for the C10 witness: one tclass flagged as having a
default class, whose single specialization has no founding signature. -/
def tclassW10 : Tclass :=
  { refWidth := 32, line := 1, numClasses := 1, hasDefaultClass := true, classes := [0] }

/-- Concrete specialization for the C10 witness. -/
def classW10 : ClassC := { owner := 0, number := 1, refWidth := 32 }

/-- Concrete state for the C10 witness. -/
def stateW10 : State := { tclasses := [tclassW10], classes := [classW10] }

/-- Concrete query signature for the C10 witness; its argument datatypes
are arbitrary. -/
def sigW10 : Signature := { tclass := 0, types := [Datatype.uintD 7] }

/-- Witness for C10 at a concrete state: the signature-less specialization
is returned for a query signature with unrelated argument types. -/
theorem c10_witness :
    ((getTclass stateW10 sigW10.tclass).classes = [] ++ 0 :: [] ∧
      (getClass stateW10 0).firstSignature = none) ∧
    findExistingClass stateW10 sigW10 =
      (if (getTclass stateW10 sigW10.tclass).hasDefaultClass then .ok (some 0)
       else .error ()) :=
  ⟨⟨by decide, by decide⟩,
    c10_signatureless_class_matches_all stateW10 sigW10 [] [] 0 (by decide) (by decide)
      (fun d hd => absurd hd (by simp))⟩

/-- C8: the tuple built for the generated `toString` contains, for the
class-body variables that are neither type-only nor compiler-generated and
in declaration order, the bare `self.member` access for members whose
datatype is not a class reference, and for class-referencing members an
explicit cast of that access to the 32-bit unsigned integer type. -/
theorem c8_class_members_cast_to_u32 (classBlockVars : List Variable) (selfExpr : DExpr) :
    (buildClassTupleExpression classBlockVars selfExpr).children =
      (classBlockVars.filter (fun v => !v.isType && !v.generated)).map (fun v =>
        let dotExpr : DExpr :=
          .mk .dotE [selfExpr, deIdentExpressionCreate v.sym v.line] "" 0
            (some v.datatype) "" v.line
        if deDatatypeGetType v.datatype = DatatypeType.classT then
          DExpr.mk .castE
            [.mk .uinttypeE [] "" 32 (some (Datatype.uintD 32)) "" v.line, dotExpr]
            "" 0 (some (Datatype.uintD 32)) "" v.line
        else dotExpr) := by
  unfold buildClassTupleExpression
  simp only [DExpr.children]
  refine List.map_congr_left ?_
  intro v hv
  by_cases h : deDatatypeGetType v.datatype = DatatypeType.classT
  · simp [classTupleMemberExpr, h, deBinaryExpressionCreate, deIdentExpressionCreate,
      deExpressionCreate, deCopyExpression, DExpr.setDatatype, DExpr.setWidth,
      deUintDatatypeCreate]
  · simp [classTupleMemberExpr, h, deBinaryExpressionCreate, deIdentExpressionCreate,
      deCopyExpression, DExpr.setDatatype]

/-- Comma-and-space separation of a list of pieces, as produced by the
`firstTime` flag of `findObjectPrintFormat`. -/
def commaSep : List String → String
  | [] => ""
  | [piece] => piece
  | piece :: next :: rest => piece ++ ", " ++ commaSep (next :: rest)

/-- The tail pieces of the format string: each preceded by a comma and
space. -/
def commaJoinTail : List String → String
  | [] => ""
  | q :: rest => ", " ++ q ++ commaJoinTail rest

/-- `commaSep` of a nonempty list is its head followed by the
comma-preceded tail pieces. -/
theorem commaSep_head (piece : String) :
    ∀ pieces : List String,
      commaSep (piece :: pieces) = piece ++ commaJoinTail pieces
  | [] => by simp [commaSep, commaJoinTail]
  | q :: rest => by
    show piece ++ ", " ++ commaSep (q :: rest) = _
    rw [commaSep_head q rest]
    simp [commaJoinTail, String.append_assoc]

/-- Unrolling of the format loop after the first element: every further
element is preceded by a comma and space. -/
theorem findObjectPrintFormatGo_false (appendOneFormatElement : DExpr → String) :
    ∀ (cs : List DExpr) (format : String),
      findObjectPrintFormatGo appendOneFormatElement cs format false =
        format ++ commaJoinTail (cs.map (formatChildPiece appendOneFormatElement))
  | [], format => by simp [findObjectPrintFormatGo, commaJoinTail]
  | c :: rest, format => by
    have h1 : findObjectPrintFormatGo appendOneFormatElement (c :: rest) format false =
        findObjectPrintFormatGo appendOneFormatElement rest
          (format ++ ", " ++ formatChildPiece appendOneFormatElement c) false := by
      simp [findObjectPrintFormatGo, String.append_assoc]
    rw [h1, findObjectPrintFormatGo_false appendOneFormatElement rest]
    simp [commaJoinTail, String.append_assoc]

/-- The format loop started with `firstTime = true` produces the
comma-separated pieces. -/
theorem findObjectPrintFormatGo_true (appendOneFormatElement : DExpr → String) :
    ∀ (cs : List DExpr) (format : String),
      findObjectPrintFormatGo appendOneFormatElement cs format true =
        format ++ commaSep (cs.map (formatChildPiece appendOneFormatElement))
  | [], format => by simp [findObjectPrintFormatGo, commaSep]
  | c :: rest, format => by
    have h1 : findObjectPrintFormatGo appendOneFormatElement (c :: rest) format true =
        findObjectPrintFormatGo appendOneFormatElement rest
          (format ++ formatChildPiece appendOneFormatElement c) false := by
      simp [findObjectPrintFormatGo]
    rw [h1, findObjectPrintFormatGo_false, List.map_cons, commaSep_head]
    simp [String.append_assoc]

/-- The member name printed for a tuple child built by
`buildClassTupleExpression` is the member variable's symbol, read through
the dot (and cast, when present). -/
theorem formatChildPiece_member (appendOneFormatElement : DExpr → String)
    (selfExpr : DExpr) (v : Variable) :
    formatChildPiece appendOneFormatElement (classTupleMemberExpr selfExpr v) =
      utSymGetName v.sym ++ " = " ++
        appendOneFormatElement (classTupleMemberExpr selfExpr v) := by
  by_cases h : deDatatypeGetType v.datatype = DatatypeType.classT
  · simp [formatChildPiece, classTupleMemberExpr, h, deBinaryExpressionCreate,
      deIdentExpressionCreate, deExpressionCreate, deCopyExpression, DExpr.setDatatype,
      DExpr.setWidth, deExpressionGetType, deExpressionGetLastExpression,
      deExpressionGetName, DExpr.ty, DExpr.children, DExpr.sym, utSymGetName,
      deUintDatatypeCreate]
  · simp [formatChildPiece, classTupleMemberExpr, h, deBinaryExpressionCreate,
      deIdentExpressionCreate, deCopyExpression, DExpr.setDatatype,
      deExpressionGetType, deExpressionGetLastExpression, deExpressionGetName,
      DExpr.ty, DExpr.children, DExpr.sym, utSymGetName]

/-- C7: the generated `toString` format string walks the class body
variables in declaration order, skips type-only and compiler-generated
variables, and concatenates an opening brace, then for each remaining
member (comma-and-space separated after the first) the member name,
`" = "` and the format slot produced by the external formatter for that
member's tuple entry, then a closing brace. -/
theorem c7_tostring_format_string (appendOneFormatElement : DExpr → String)
    (classBlockVars : List Variable) (selfExpr : DExpr) :
    findObjectPrintFormat appendOneFormatElement
        (buildClassTupleExpression classBlockVars selfExpr) =
      "\x7b" ++
        commaSep ((classBlockVars.filter (fun v => !v.isType && !v.generated)).map
          (fun v => utSymGetName v.sym ++ " = " ++
            appendOneFormatElement (classTupleMemberExpr selfExpr v))) ++
      "\x7d" := by
  rw [findObjectPrintFormat]
  rw [findObjectPrintFormatGo_true]
  have hch : (buildClassTupleExpression classBlockVars selfExpr).children =
      (classBlockVars.filter (fun v => !v.isType && !v.generated)).map
        (classTupleMemberExpr selfExpr) := by
    unfold buildClassTupleExpression
    simp [DExpr.children]
  rw [hch, List.map_map]
  have hmap : ((classBlockVars.filter (fun v => !v.isType && !v.generated)).map
        (formatChildPiece appendOneFormatElement ∘ classTupleMemberExpr selfExpr)) =
      ((classBlockVars.filter (fun v => !v.isType && !v.generated)).map
        (fun v => utSymGetName v.sym ++ " = " ++
          appendOneFormatElement (classTupleMemberExpr selfExpr v))) := by
    refine List.map_congr_left ?_
    intro v hv
    simpa using formatChildPiece_member appendOneFormatElement selfExpr v
  rw [hmap]

/-- C9: the generated `dump` method consists of a single print statement
whose arguments are a call of `self.toString` — the callee reached through
a dot expression whose right operand is an ident expression carrying only
the name `toString`, not a reference to any function — followed by the
string `"\n"`. -/
theorem c9_dump_prints_tostring_newline (s : State) (theClass : ClassId) :
    (deGenerateDefaultDumpMethod s theClass).name = "dump" ∧
    (deGenerateDefaultDumpMethod s theClass).statements.map (fun st => st.ty) =
      [StatementType.printS] ∧
    (deGenerateDefaultDumpMethod s theClass).statements.map (fun st => st.expr) =
      [some (DExpr.mk .listE
        [DExpr.mk .callE
          [DExpr.mk .dotE
            [DExpr.mk .identE [] "self" 0 (some (Datatype.classD theClass)) ""
               (getClass s theClass).line,
             DExpr.mk .identE [] "toString" 0 none "" (getClass s theClass).line]
            "" 0 none "" (getClass s theClass).line,
           DExpr.mk .listE [] "" 0 none "" (getClass s theClass).line]
          "" 0 none "" (getClass s theClass).line,
         DExpr.mk .stringE [] "" 0 none "\n" (getClass s theClass).line]
        "" 0 none "" (getClass s theClass).line)] :=
  ⟨rfl, rfl, rfl⟩

/-- Concrete tclass for the C5 evaluation: reference width 32, no
`inTclassSignature` variables, one method `m` declared at line 7 in the
constructor block. -/
def tclassW5 : Tclass :=
  { refWidth := 32, line := 2, ctorFuncs := [{ sym := "m", line := 7 }] }

/-- Concrete state for the C5 evaluation. -/
def stateW5 : State := { tclasses := [tclassW5], classes := [] }

/-- C5 evaluation: on a template with no template parameters,
`deTclassGetDefaultClass` (which calls `classCreate`, leaving
`defaultClassCreate` unused) returns a class whose `nextFree` variable is
typed as a 32-bit unsigned integer (the reference width) and whose body
holds no forwarding identifiers, whereas the unused `defaultClassCreate`
would have typed `nextFree` as the class's own self type and created a
forwarding identifier for the method `m`. -/
theorem c5_default_class_divergence :
    (deTclassGetDefaultClass stateW5 0).2 = some 0 ∧
    ((getClass (deTclassGetDefaultClass stateW5 0).1 0).bodyVars.map
        (fun v => v.datatype) = [Datatype.uintD 32] ∧
      (getClass (deTclassGetDefaultClass stateW5 0).1 0).bodyIdents = []) ∧
    ((getClass (defaultClassCreate stateW5 0).1 (defaultClassCreate stateW5 0).2).bodyVars.map
        (fun v => v.datatype) = [Datatype.classD 0] ∧
      (getClass (defaultClassCreate stateW5 0).1 (defaultClassCreate stateW5 0).2).bodyIdents =
        [{ identType := .functionI, sym := "m", line := 7, target := 0 }]) := by
  decide

/-! Shape lemmas for the state-mutating operations. -/

/-- The `nextFree` variable allocated by `classCreate`. -/
def classCreateNextFree (s : State) (t : TclassId) : Variable :=
  { varType := .localV, isConst := false, sym := "nextFree", generated := true,
    line := 0, datatype := Datatype.uintD (getTclass s t).refWidth, instantiated := true }

/-- The class record allocated by `classCreate`. -/
def classCreateNew (s : State) (t : TclassId) : ClassC :=
  { owner := t, number := (getTclass s t).numClasses + 1,
    refWidth := (getTclass s t).refWidth, line := (getTclass s t).line,
    datatype := Datatype.classD s.classes.length,
    bodyVars := [classCreateNextFree s t],
    bodyIdents := [], firstSignature := none }

theorem classCreate_snd (s : State) (t : TclassId) :
    (classCreate s t).2 = s.classes.length := rfl

/-- The tclass record after `classCreate` bumps the count and appends the
new class handle. -/
def classCreateTclassUpd (s : State) (t : TclassId) : Tclass :=
  { getTclass s t with
      numClasses := (getTclass s t).numClasses + 1,
      classes := (getTclass s t).classes ++ [s.classes.length] }

theorem classCreate_tclasses (s : State) (t : TclassId) :
    (classCreate s t).1.tclasses = s.tclasses.set t (classCreateTclassUpd s t) := rfl

theorem classCreate_classes (s : State) (t : TclassId) :
    (classCreate s t).1.classes = s.classes ++ [classCreateNew s t] := rfl

theorem classCreate_classes_length (s : State) (t : TclassId) :
    (classCreate s t).1.classes.length = s.classes.length + 1 := by
  rw [classCreate_classes]; simp

theorem classCreate_tclasses_length (s : State) (t : TclassId) :
    (classCreate s t).1.tclasses.length = s.tclasses.length := by
  rw [classCreate_tclasses]; simp

theorem getTclass_classCreate_ne (s : State) (t t2 : TclassId) (h : t2 ≠ t) :
    getTclass (classCreate s t).1 t2 = getTclass s t2 := by
  rw [getTclass, classCreate_tclasses, getD_set_ne _ _ _ _ _ h]; rfl

theorem getTclass_classCreate_self (s : State) (t : TclassId) (h : t < s.tclasses.length) :
    getTclass (classCreate s t).1 t = classCreateTclassUpd s t := by
  rw [getTclass, classCreate_tclasses, getD_set_self _ _ _ _ h]

theorem getTclass_classCreate_ge (s : State) (t : TclassId) (h : ¬ t < s.tclasses.length) :
    getTclass (classCreate s t).1 t = getTclass s t := by
  rw [getTclass, classCreate_tclasses, List.set_eq_of_length_le (Nat.le_of_not_lt h)]
  rfl

theorem getClass_classCreate_lt (s : State) (t : TclassId) (c : ClassId)
    (h : c < s.classes.length) :
    getClass (classCreate s t).1 c = getClass s c := by
  rw [getClass, classCreate_classes, getD_append_lt _ _ _ _ h]; rfl

theorem getClass_classCreate_new (s : State) (t : TclassId) :
    getClass (classCreate s t).1 s.classes.length = classCreateNew s t := by
  rw [getClass, classCreate_classes, getD_append_len]

theorem setFounding_tclasses (s : State) (c : ClassId) (sig : Signature) :
    (setClassFoundingSignature s c sig).tclasses = s.tclasses := rfl

theorem getTclass_setFounding (s : State) (c : ClassId) (sig : Signature) (t : TclassId) :
    getTclass (setClassFoundingSignature s c sig) t = getTclass s t := rfl

theorem setFounding_classes_length (s : State) (c : ClassId) (sig : Signature) :
    (setClassFoundingSignature s c sig).classes.length = s.classes.length := by
  simp [setClassFoundingSignature, setClass]

theorem getClass_setFounding_ne (s : State) (c : ClassId) (sig : Signature) (c2 : ClassId)
    (h : c2 ≠ c) :
    getClass (setClassFoundingSignature s c sig) c2 = getClass s c2 := by
  rw [getClass, getClass]
  exact getD_set_ne _ _ _ _ _ h

theorem getClass_setFounding_self (s : State) (c : ClassId) (sig : Signature)
    (h : c < s.classes.length) :
    getClass (setClassFoundingSignature s c sig) c =
      { getClass s c with firstSignature := some sig } := by
  rw [getClass]
  exact getD_set_self _ _ _ _ h

theorem setFounding_noop (s : State) (c : ClassId) (sig : Signature)
    (h : ¬ c < s.classes.length) :
    setClassFoundingSignature s c sig = s := by
  unfold setClassFoundingSignature setClass
  rw [List.set_eq_of_length_le (Nat.le_of_not_lt h)]

theorem tclassCreate_classes (s : State) (ctor : Constructor) (refWidth : Nat) (line : Line) :
    (deTclassCreate s ctor refWidth line).1.classes = s.classes := rfl

theorem tclassCreate_tclasses_length (s : State) (ctor : Constructor) (refWidth : Nat)
    (line : Line) :
    (deTclassCreate s ctor refWidth line).1.tclasses.length = s.tclasses.length + 1 := by
  simp [deTclassCreate]

theorem getTclass_tclassCreate_lt (s : State) (ctor : Constructor) (refWidth : Nat)
    (line : Line) (t : TclassId) (h : t < s.tclasses.length) :
    getTclass (deTclassCreate s ctor refWidth line).1 t = getTclass s t := by
  rw [getTclass]
  show (s.tclasses ++ [_]).getD t default = _
  rw [getD_append_lt _ _ _ _ h]; rfl

theorem getTclass_tclassCreate_ge (s : State) (ctor : Constructor) (refWidth : Nat)
    (line : Line) (t : TclassId) (h : ¬ t < s.tclasses.length) :
    (getTclass (deTclassCreate s ctor refWidth line).1 t).classes = [] ∧
    (getTclass (deTclassCreate s ctor refWidth line).1 t).numClasses = 0 ∧
    (getTclass (deTclassCreate s ctor refWidth line).1 t).hasDefaultClass = false := by
  by_cases he : t = s.tclasses.length
  · subst he
    have hv : getTclass (deTclassCreate s ctor refWidth line).1 s.tclasses.length =
        { refWidth := refWidth, line := line,
          datatype := deTclassDatatypeCreate s.tclasses.length,
          ctorLinkage := ctor.linkage, ctorVars := ctor.vars,
          ctorFuncs := if ctor.builtin then ctor.funcs
                       else addDestroyMethod ctor.funcs ctor.blockLine } := by
      rw [getTclass]
      show (s.tclasses ++ [_]).getD s.tclasses.length default = _
      rw [getD_append_len]
    rw [hv]
    exact ⟨rfl, rfl, rfl⟩
  · have hv : getTclass (deTclassCreate s ctor refWidth line).1 t = default := by
      rw [getTclass]
      show (s.tclasses ++ [_]).getD t default = default
      apply getD_ge
      simp only [List.length_append, List.length_cons, List.length_nil]
      exact Nat.not_lt.mpr (Nat.succ_le_of_lt
        (Nat.lt_of_le_of_ne (Nat.le_of_not_lt h) (Ne.symm he)))
    rw [hv]
    exact ⟨rfl, rfl, rfl⟩

theorem setTclass_classes (s : State) (t : TclassId) (tc : Tclass) :
    (setTclass s t tc).classes = s.classes := rfl

theorem setTclass_tclasses_length (s : State) (t : TclassId) (tc : Tclass) :
    (setTclass s t tc).tclasses.length = s.tclasses.length := by
  simp [setTclass]

theorem getTclass_setTclass_ne (s : State) (t : TclassId) (tc : Tclass) (t2 : TclassId)
    (h : t2 ≠ t) :
    getTclass (setTclass s t tc) t2 = getTclass s t2 := by
  rw [getTclass, getTclass]
  exact getD_set_ne _ _ _ _ _ h

theorem getTclass_setTclass_self (s : State) (t : TclassId) (tc : Tclass)
    (h : t < s.tclasses.length) :
    getTclass (setTclass s t tc) t = tc := by
  rw [getTclass]
  exact getD_set_self _ _ _ _ h

theorem getTclass_setTclass_ge (s : State) (t : TclassId) (tc : Tclass)
    (h : ¬ t < s.tclasses.length) :
    getTclass (setTclass s t tc) t = getTclass s t := by
  rw [getTclass, getTclass]
  show (s.tclasses.set t tc).getD t default = s.tclasses.getD t default
  rw [List.set_eq_of_length_le (Nat.le_of_not_lt h)]

theorem getClass_setTclass (s : State) (t : TclassId) (tc : Tclass) (c : ClassId) :
    getClass (setTclass s t tc) c = getClass s c := rfl

/-! Monotone-numbering invariant and its preservation. -/

/-- The monotone-numbering invariant: every tclass's specialization list is
as long as its class counter, and its i-th listed class handle is in
bounds and carries sequence number `i + 1` — numbers `1, 2, 3, ...` in
creation order with no gaps and no reuse. -/
def NumberingInv (s : State) : Prop :=
  ∀ t : TclassId,
    (getTclass s t).classes.length = (getTclass s t).numClasses ∧
    ∀ i, i < (getTclass s t).classes.length →
      (getTclass s t).classes.getD i 0 < s.classes.length ∧
      (getClass s ((getTclass s t).classes.getD i 0)).number = i + 1

theorem classCreate_numberingInv (s : State) (t : TclassId) (h : NumberingInv s) :
    NumberingInv (classCreate s t).1 := by
  intro t2
  by_cases ht2 : t2 = t
  · subst ht2
    by_cases hlt : t2 < s.tclasses.length
    · rw [getTclass_classCreate_self s t2 hlt]
      obtain ⟨hlen, hnum⟩ := h t2
      constructor
      · simp [classCreateTclassUpd, hlen]
      · intro i hi
        simp only [classCreateTclassUpd, List.length_append, List.length_cons,
          List.length_nil] at hi
        by_cases hio : i < (getTclass s t2).classes.length
        · simp only [classCreateTclassUpd]
          rw [getD_append_lt _ _ _ _ hio]
          obtain ⟨hb, hn⟩ := hnum i hio
          constructor
          · rw [classCreate_classes_length]
            exact Nat.lt_succ_of_lt hb
          · rw [getClass_classCreate_lt _ _ _ hb]
            exact hn
        · have hieq : i = (getTclass s t2).classes.length := by omega
          subst hieq
          simp only [classCreateTclassUpd]
          rw [getD_append_len]
          constructor
          · rw [classCreate_classes_length]
            exact Nat.lt_succ_self _
          · rw [getClass_classCreate_new]
            simp [classCreateNew, hlen]
    · rw [getTclass_classCreate_ge s t2 hlt]
      obtain ⟨hlen, hnum⟩ := h t2
      refine ⟨hlen, ?_⟩
      intro i hi
      obtain ⟨hb, hn⟩ := hnum i hi
      constructor
      · rw [classCreate_classes_length]
        exact Nat.lt_succ_of_lt hb
      · rw [getClass_classCreate_lt _ _ _ hb]
        exact hn
  · rw [getTclass_classCreate_ne s t t2 ht2]
    obtain ⟨hlen, hnum⟩ := h t2
    refine ⟨hlen, ?_⟩
    intro i hi
    obtain ⟨hb, hn⟩ := hnum i hi
    constructor
    · rw [classCreate_classes_length]
      exact Nat.lt_succ_of_lt hb
    · rw [getClass_classCreate_lt _ _ _ hb]
      exact hn

theorem setFounding_numberingInv (s : State) (c : ClassId) (sig : Signature)
    (h : NumberingInv s) :
    NumberingInv (setClassFoundingSignature s c sig) := by
  intro t2
  rw [getTclass_setFounding]
  obtain ⟨hlen, hnum⟩ := h t2
  refine ⟨hlen, ?_⟩
  intro i hi
  obtain ⟨hb, hn⟩ := hnum i hi
  constructor
  · rw [setFounding_classes_length]
    exact hb
  · by_cases hc : (getTclass s t2).classes.getD i 0 = c
    · rw [hc]
      by_cases hcb : c < s.classes.length
      · rw [getClass_setFounding_self s c sig hcb]
        rw [hc] at hn
        exact hn
      · rw [setFounding_noop s c sig hcb]
        rw [hc] at hn
        exact hn
    · rw [getClass_setFounding_ne s c sig _ hc]
      exact hn

theorem tclassCreate_numberingInv (s : State) (ctor : Constructor) (refWidth : Nat)
    (line : Line) (h : NumberingInv s) :
    NumberingInv (deTclassCreate s ctor refWidth line).1 := by
  intro t2
  by_cases hlt : t2 < s.tclasses.length
  · rw [getTclass_tclassCreate_lt s ctor refWidth line t2 hlt]
    obtain ⟨hlen, hnum⟩ := h t2
    refine ⟨hlen, ?_⟩
    intro i hi
    obtain ⟨hb, hn⟩ := hnum i hi
    refine ⟨by rw [tclassCreate_classes]; exact hb, ?_⟩
    rw [show getClass (deTclassCreate s ctor refWidth line).1 = getClass s from rfl]
    exact hn
  · obtain ⟨h1, h2, _⟩ := getTclass_tclassCreate_ge s ctor refWidth line t2 hlt
    rw [h1, h2]
    exact ⟨rfl, fun i hi => absurd hi (by simp)⟩

theorem setTclass_sameCounts_numberingInv (s : State) (t : TclassId) (tc : Tclass)
    (h : NumberingInv s)
    (hclasses : tc.classes = (getTclass s t).classes)
    (hcount : tc.numClasses = (getTclass s t).numClasses) :
    NumberingInv (setTclass s t tc) := by
  intro t2
  by_cases ht2 : t2 = t
  · subst ht2
    by_cases hlt : t2 < s.tclasses.length
    · rw [getTclass_setTclass_self s t2 tc hlt, hclasses, hcount]
      obtain ⟨hlen, hnum⟩ := h t2
      refine ⟨hlen, ?_⟩
      intro i hi
      obtain ⟨hb, hn⟩ := hnum i hi
      rw [setTclass_classes, getClass_setTclass]
      exact ⟨hb, hn⟩
    · rw [getTclass_setTclass_ge s t2 tc hlt]
      obtain ⟨hlen, hnum⟩ := h t2
      refine ⟨hlen, ?_⟩
      intro i hi
      obtain ⟨hb, hn⟩ := hnum i hi
      rw [setTclass_classes, getClass_setTclass]
      exact ⟨hb, hn⟩
  · rw [getTclass_setTclass_ne s t tc t2 ht2]
    obtain ⟨hlen, hnum⟩ := h t2
    refine ⟨hlen, ?_⟩
    intro i hi
    obtain ⟨hb, hn⟩ := hnum i hi
    rw [setTclass_classes, getClass_setTclass]
    exact ⟨hb, hn⟩

/-- A successful `resolveOrCreateClass` leaves the state unchanged (cache
hit or scan hit) or extends it by exactly the freshly created class, which
then carries the resolving signature as founding signature. -/
theorem resolveOrCreateClass_state_cases (s : State) (t : TclassId) (sig : Signature)
    (s2 : State) (sig2 : Signature) (c : ClassId)
    (h : resolveOrCreateClass s t sig = .ok (s2, sig2, c)) :
    s2 = s ∨
      (s2 = setClassFoundingSignature (classCreate s t).1 (classCreate s t).2 sig ∧
        c = (classCreate s t).2) := by
  unfold resolveOrCreateClass deClassCreate at h
  cases hc : sig.cachedClass with
  | some c0 =>
    rw [hc] at h
    simp only [lt_self_iff_false, if_false, Except.ok.injEq, Prod.mk.injEq] at h
    exact Or.inl h.1.symm
  | none =>
    rw [hc] at h
    cases hf : findExistingClass s sig with
    | error e =>
      rw [hf] at h
      simp at h
    | ok o =>
      rw [hf] at h
      cases o with
      | some c0 =>
        simp only [lt_self_iff_false, if_false, Except.ok.injEq, Prod.mk.injEq] at h
        exact Or.inl h.1.symm
      | none =>
        simp only [classCreate_snd, classCreate_classes_length, Nat.lt_succ_self,
          if_true, Except.ok.injEq, Prod.mk.injEq] at h
        exact Or.inr ⟨h.1.symm, h.2.2.symm⟩

/-- The three possible state outcomes of `deTclassGetDefaultClass`. -/
theorem getDefault_state_cases (s : State) (t : TclassId) :
    (deTclassGetDefaultClass s t).1 = s ∨
    (deTclassGetDefaultClass s t).1 =
      setTclass s t { getTclass s t with hasDefaultClass := true } ∨
    (deTclassGetDefaultClass s t).1 =
      setTclass (classCreate s t).1 t
        { getTclass (classCreate s t).1 t with hasDefaultClass := true } := by
  unfold deTclassGetDefaultClass
  by_cases h1 : (getTclass s t).hasDefaultClass = false
  · rw [if_pos h1]
    by_cases h2 : tclassHasTemplateParameters (getTclass s t) = true
    · rw [if_pos h2]
      exact Or.inl rfl
    · rw [if_neg h2]
      by_cases h3 : deTclassGetFirstClass s t = none
      · rw [if_pos h3]
        exact Or.inr (Or.inr rfl)
      · rw [if_neg h3]
        exact Or.inr (Or.inl rfl)
  · rw [if_neg h1]
    exact Or.inl rfl

/-- Setting the `hasDefaultClass` flag changes no class list, no counter,
and never clears a set flag. -/
theorem getTclass_setHasDefault (s : State) (t0 t : TclassId) :
    (getTclass (setTclass s t0 { getTclass s t0 with hasDefaultClass := true }) t).classes =
      (getTclass s t).classes ∧
    (getTclass (setTclass s t0 { getTclass s t0 with hasDefaultClass := true }) t).numClasses =
      (getTclass s t).numClasses ∧
    ((getTclass s t).hasDefaultClass = true →
      (getTclass (setTclass s t0
          { getTclass s t0 with hasDefaultClass := true }) t).hasDefaultClass = true) := by
  by_cases ht : t = t0
  · subst ht
    by_cases hlt : t < s.tclasses.length
    · rw [getTclass_setTclass_self s t _ hlt]
      exact ⟨rfl, rfl, fun _ => rfl⟩
    · rw [getTclass_setTclass_ge s t _ hlt]
      exact ⟨rfl, rfl, fun hh => hh⟩
  · rw [getTclass_setTclass_ne s t0 _ t ht]
    exact ⟨rfl, rfl, fun hh => hh⟩

theorem tclass_default_classes : (default : Tclass).classes = [] := rfl

theorem tclass_default_hasDefault : (default : Tclass).hasDefaultClass = false := rfl

/-- Every operation only appends to each tclass's specialization list. -/
theorem stepOp_classes_extend (s : State) (op : Op) (t : TclassId) :
    ∃ added, (getTclass (stepOp s op) t).classes = (getTclass s t).classes ++ added := by
  cases op with
  | createTclassOp ctor refWidth line =>
    show ∃ added, (getTclass (deTclassCreate s ctor refWidth line).1 t).classes = _
    by_cases hlt : t < s.tclasses.length
    · rw [getTclass_tclassCreate_lt s ctor refWidth line t hlt]
      exact ⟨[], by simp⟩
    · obtain ⟨h1, _, _⟩ := getTclass_tclassCreate_ge s ctor refWidth line t hlt
      rw [h1, getTclass, getD_ge _ _ _ hlt]
      exact ⟨[], by simp [tclass_default_classes]⟩
  | resolveOp t0 sig =>
    show ∃ added,
      (getTclass (match resolveOrCreateClass s t0 sig with
        | .ok r => r.1 | .error _ => s) t).classes = _
    cases hr : resolveOrCreateClass s t0 sig with
    | error e => exact ⟨[], by simp⟩
    | ok r =>
      obtain ⟨s2, sig2, c⟩ := r
      rcases resolveOrCreateClass_state_cases s t0 sig s2 sig2 c hr with he | ⟨he, _⟩
      · rw [he]
        exact ⟨[], by simp⟩
      · rw [he]
        rw [show getTclass (setClassFoundingSignature (classCreate s t0).1
            (classCreate s t0).2 sig) t = getTclass (classCreate s t0).1 t from rfl]
        by_cases ht : t = t0
        · subst ht
          by_cases hlt : t < s.tclasses.length
          · rw [getTclass_classCreate_self s t hlt]
            exact ⟨[s.classes.length], rfl⟩
          · rw [getTclass_classCreate_ge s t hlt]
            exact ⟨[], by simp⟩
        · rw [getTclass_classCreate_ne s t0 t ht]
          exact ⟨[], by simp⟩
  | getDefaultOp t0 =>
    show ∃ added, (getTclass (deTclassGetDefaultClass s t0).1 t).classes = _
    rcases getDefault_state_cases s t0 with he | he | he
    · rw [he]
      exact ⟨[], by simp⟩
    · rw [he]
      obtain ⟨h1, _, _⟩ := getTclass_setHasDefault s t0 t
      rw [h1]
      exact ⟨[], by simp⟩
    · rw [he]
      obtain ⟨h1, _, _⟩ := getTclass_setHasDefault (classCreate s t0).1 t0 t
      rw [h1]
      by_cases ht : t = t0
      · subst ht
        by_cases hlt : t < s.tclasses.length
        · rw [getTclass_classCreate_self s t hlt]
          exact ⟨[s.classes.length], rfl⟩
        · rw [getTclass_classCreate_ge s t hlt]
          exact ⟨[], by simp⟩
      · rw [getTclass_classCreate_ne s t0 t ht]
        exact ⟨[], by simp⟩

/-- No operation ever clears a tclass's `hasDefaultClass` flag. -/
theorem stepOp_hasDefault_persists (s : State) (op : Op) (t : TclassId)
    (h : (getTclass s t).hasDefaultClass = true) :
    (getTclass (stepOp s op) t).hasDefaultClass = true := by
  cases op with
  | createTclassOp ctor refWidth line =>
    show (getTclass (deTclassCreate s ctor refWidth line).1 t).hasDefaultClass = true
    by_cases hlt : t < s.tclasses.length
    · rw [getTclass_tclassCreate_lt s ctor refWidth line t hlt]
      exact h
    · rw [getTclass, getD_ge _ _ _ hlt, tclass_default_hasDefault] at h
      cases h
  | resolveOp t0 sig =>
    show (getTclass (match resolveOrCreateClass s t0 sig with
        | .ok r => r.1 | .error _ => s) t).hasDefaultClass = true
    cases hr : resolveOrCreateClass s t0 sig with
    | error e => exact h
    | ok r =>
      obtain ⟨s2, sig2, c⟩ := r
      rcases resolveOrCreateClass_state_cases s t0 sig s2 sig2 c hr with he | ⟨he, _⟩
      · rw [he]
        exact h
      · rw [he]
        rw [show getTclass (setClassFoundingSignature (classCreate s t0).1
            (classCreate s t0).2 sig) t = getTclass (classCreate s t0).1 t from rfl]
        by_cases ht : t = t0
        · subst ht
          by_cases hlt : t < s.tclasses.length
          · rw [getTclass_classCreate_self s t hlt]
            exact h
          · rw [getTclass_classCreate_ge s t hlt]
            exact h
        · rw [getTclass_classCreate_ne s t0 t ht]
          exact h
  | getDefaultOp t0 =>
    show (getTclass (deTclassGetDefaultClass s t0).1 t).hasDefaultClass = true
    rcases getDefault_state_cases s t0 with he | he | he
    · rw [he]
      exact h
    · rw [he]
      exact (getTclass_setHasDefault s t0 t).2.2 h
    · rw [he]
      refine (getTclass_setHasDefault (classCreate s t0).1 t0 t).2.2 ?_
      by_cases ht : t = t0
      · subst ht
        by_cases hlt : t < s.tclasses.length
        · rw [getTclass_classCreate_self s t hlt]
          exact h
        · rw [getTclass_classCreate_ge s t hlt]
          exact h
      · rw [getTclass_classCreate_ne s t0 t ht]
        exact h

/-- Every operation preserves the monotone-numbering invariant. -/
theorem stepOp_numberingInv (s : State) (op : Op) (h : NumberingInv s) :
    NumberingInv (stepOp s op) := by
  cases op with
  | createTclassOp ctor refWidth line =>
    exact tclassCreate_numberingInv s ctor refWidth line h
  | resolveOp t0 sig =>
    show NumberingInv (match resolveOrCreateClass s t0 sig with
      | .ok r => r.1 | .error _ => s)
    cases hr : resolveOrCreateClass s t0 sig with
    | error e => exact h
    | ok r =>
      obtain ⟨s2, sig2, c⟩ := r
      rcases resolveOrCreateClass_state_cases s t0 sig s2 sig2 c hr with he | ⟨he, _⟩
      · rw [he]
        exact h
      · rw [he]
        exact setFounding_numberingInv _ _ _ (classCreate_numberingInv s t0 h)
  | getDefaultOp t0 =>
    show NumberingInv (deTclassGetDefaultClass s t0).1
    rcases getDefault_state_cases s t0 with he | he | he
    · rw [he]
      exact h
    · rw [he]
      exact setTclass_sameCounts_numberingInv s t0 _ h rfl rfl
    · rw [he]
      exact setTclass_sameCounts_numberingInv (classCreate s t0).1 t0 _
        (classCreate_numberingInv s t0 h) rfl rfl

/-- A whole run preserves the monotone-numbering invariant. -/
theorem runOps_numberingInv (ops : List Op) :
    ∀ (s : State), NumberingInv s → NumberingInv (runOps s ops) := by
  induction ops with
  | nil => exact fun s h => h
  | cons op rest ih =>
    intro s h
    exact ih (stepOp s op) (stepOp_numberingInv s op h)

/-- Once a tclass has its default class (flag set, first class present),
any further run of operations keeps the flag and the same first class. -/
theorem runOps_default_persists (ops : List Op) :
    ∀ (s : State) (t : TclassId) (c : ClassId),
      (getTclass s t).hasDefaultClass = true →
      deTclassGetFirstClass s t = some c →
      (getTclass (runOps s ops) t).hasDefaultClass = true ∧
        deTclassGetFirstClass (runOps s ops) t = some c := by
  induction ops with
  | nil => exact fun s t c hd hf => ⟨hd, hf⟩
  | cons op rest ih =>
    intro s t c hd hf
    refine ih (stepOp s op) t c (stepOp_hasDefault_persists s op t hd) ?_
    obtain ⟨added, hadd⟩ := stepOp_classes_extend s op t
    rw [deTclassGetFirstClass] at hf ⊢
    rw [hadd]
    cases hcl : (getTclass s t).classes with
    | nil =>
      rw [hcl] at hf
      cases hf
    | cons c0 rest2 =>
      rw [hcl] at hf
      simp only [List.head?_cons, Option.some.injEq] at hf
      simp [hf]

/-- C6: specializations of one template are numbered 1, 2, 3, ... in
creation order with no gaps and no reuse: `classCreate` numbers the new
class with the template's current count plus one and bumps the count, every
operation preserves the numbering invariant and only appends to
specialization lists, and the invariant holds after any whole run. -/
theorem c6_monotonic_numbering (s : State) (hInv : NumberingInv s) :
    (∀ t, (getClass (classCreate s t).1 (classCreate s t).2).number =
        (getTclass s t).numClasses + 1 ∧
      (t < s.tclasses.length →
        (getTclass (classCreate s t).1 t).numClasses =
          (getTclass s t).numClasses + 1)) ∧
    (∀ op, NumberingInv (stepOp s op) ∧
      ∀ t, ∃ added, (getTclass (stepOp s op) t).classes =
        (getTclass s t).classes ++ added) ∧
    (∀ ops, NumberingInv (runOps s ops)) := by
  refine ⟨?_, ?_, ?_⟩
  · intro t
    constructor
    · rw [classCreate_snd, getClass_classCreate_new]
      rfl
    · intro hlt
      rw [getTclass_classCreate_self s t hlt]
      rfl
  · intro op
    exact ⟨stepOp_numberingInv s op hInv, fun t => stepOp_classes_extend s op t⟩
  · intro ops
    exact runOps_numberingInv ops s hInv

/-- The empty initial state (`deTheRoot` before any creation). -/
def stateInit : State := {}

/-- Witness for C6: the invariant holds in the empty state and after a
concrete run that creates a template and its default class. -/
theorem c6_witness :
    NumberingInv stateInit ∧
    NumberingInv (runOps stateInit [Op.createTclassOp {} 32 1, Op.getDefaultOp 0]) := by
  have hd : ∀ t : TclassId, getTclass stateInit t = default := by
    intro t
    rw [getTclass]
    exact getD_ge _ _ _ (Nat.not_lt_zero t)
  have hinv : NumberingInv stateInit := by
    intro t
    rw [hd t]
    refine ⟨rfl, ?_⟩
    intro i hi
    rw [tclass_default_classes] at hi
    exact absurd hi (by simp)
  exact ⟨hinv, (c6_monotonic_numbering stateInit hinv).2.2 _⟩

/-- C4 (amended): with the flag not yet set, `deTclassGetDefaultClass`
returns none when any constructor-block variable (parameter or not) is
marked `inTclassSignature`; when none is marked and the tclass handle is
valid, it returns a class, a second call returns the same class with the
state unchanged, and any further run of operations still yields that same
class. -/
theorem c4_default_class_idempotent (s : State) (t : TclassId)
    (hnd : (getTclass s t).hasDefaultClass = false) :
    ((∃ v ∈ (getTclass s t).ctorVars, v.inTclassSignature = true) →
      (deTclassGetDefaultClass s t).2 = none) ∧
    (t < s.tclasses.length →
      (∀ v ∈ (getTclass s t).ctorVars, v.inTclassSignature = false) →
      ∃ c, (deTclassGetDefaultClass s t).2 = some c ∧
        deTclassGetDefaultClass (deTclassGetDefaultClass s t).1 t =
          ((deTclassGetDefaultClass s t).1, some c) ∧
        ∀ ops, (deTclassGetDefaultClass
            (runOps (deTclassGetDefaultClass s t).1 ops) t).2 = some c) := by
  constructor
  · intro hex
    have hp : tclassHasTemplateParameters (getTclass s t) = true := by
      obtain ⟨v, hv, hflag⟩ := hex
      unfold tclassHasTemplateParameters
      rw [List.any_eq_true]
      exact ⟨v, hv, hflag⟩
    unfold deTclassGetDefaultClass
    rw [if_pos hnd, if_pos hp]
  · intro hlt hall
    have hp : tclassHasTemplateParameters (getTclass s t) = false := by
      unfold tclassHasTemplateParameters
      simp only [List.any_eq_false]
      intro v hv
      simp [hall v hv]
    cases h3 : deTclassGetFirstClass s t with
    | some c0 =>
      have heq : deTclassGetDefaultClass s t =
          (setTclass s t { getTclass s t with hasDefaultClass := true }, some c0) := by
        unfold deTclassGetDefaultClass
        rw [if_pos hnd, if_neg (by simp [hp]), if_neg (by simp [h3])]
        have hf2 : deTclassGetFirstClass
            (setTclass s t { getTclass s t with hasDefaultClass := true }) t = some c0 := by
          rw [deTclassGetFirstClass, getTclass_setTclass_self s t _ hlt]
          exact h3
        exact Prod.ext rfl hf2
      refine ⟨c0, by rw [heq], ?_, ?_⟩
      · rw [heq]
        have hs2d : (getTclass (setTclass s t
            { getTclass s t with hasDefaultClass := true }) t).hasDefaultClass = true := by
          rw [getTclass_setTclass_self s t _ hlt]
        have hf2 : deTclassGetFirstClass
            (setTclass s t { getTclass s t with hasDefaultClass := true }) t = some c0 := by
          rw [deTclassGetFirstClass, getTclass_setTclass_self s t _ hlt]
          exact h3
        unfold deTclassGetDefaultClass
        rw [if_neg (by simp [hs2d]), hf2]
      · intro ops
        rw [heq]
        have hs2d : (getTclass (setTclass s t
            { getTclass s t with hasDefaultClass := true }) t).hasDefaultClass = true := by
          rw [getTclass_setTclass_self s t _ hlt]
        have hf2 : deTclassGetFirstClass
            (setTclass s t { getTclass s t with hasDefaultClass := true }) t = some c0 := by
          rw [deTclassGetFirstClass, getTclass_setTclass_self s t _ hlt]
          exact h3
        obtain ⟨hd2, hff⟩ := runOps_default_persists ops _ t c0 hs2d hf2
        unfold deTclassGetDefaultClass
        rw [if_neg (by simp [hd2])]
        exact hff
    | none =>
      have hlt1 : t < (classCreate s t).1.tclasses.length := by
        rw [classCreate_tclasses_length]
        exact hlt
      have hnil : (getTclass s t).classes = [] := by
        rw [deTclassGetFirstClass] at h3
        exact List.head?_eq_none_iff.mp h3
      have hf2 : deTclassGetFirstClass
          (setTclass (classCreate s t).1 t
            { getTclass (classCreate s t).1 t with hasDefaultClass := true }) t =
          some s.classes.length := by
        rw [deTclassGetFirstClass, getTclass_setTclass_self _ t _ hlt1]
        show (getTclass (classCreate s t).1 t).classes.head? = _
        rw [getTclass_classCreate_self s t hlt]
        show ((getTclass s t).classes ++ [s.classes.length]).head? = _
        rw [hnil]
        rfl
      have hs2d : (getTclass (setTclass (classCreate s t).1 t
          { getTclass (classCreate s t).1 t with
              hasDefaultClass := true }) t).hasDefaultClass = true := by
        rw [getTclass_setTclass_self _ t _ hlt1]
      have heq : deTclassGetDefaultClass s t =
          (setTclass (classCreate s t).1 t
            { getTclass (classCreate s t).1 t with hasDefaultClass := true },
           some s.classes.length) := by
        unfold deTclassGetDefaultClass
        rw [if_pos hnd, if_neg (by simp [hp]), if_pos (by rw [h3])]
        exact Prod.ext rfl hf2
      refine ⟨s.classes.length, by rw [heq], ?_, ?_⟩
      · rw [heq]
        unfold deTclassGetDefaultClass
        rw [if_neg (by simp [hs2d]), hf2]
      · intro ops
        rw [heq]
        obtain ⟨hd2, hff⟩ := runOps_default_persists ops _ t s.classes.length hs2d hf2
        unfold deTclassGetDefaultClass
        rw [if_neg (by simp [hd2])]
        exact hff

/-- Concrete tclass for the C4 counterexample: its only constructor-block
variable marked `inTclassSignature` is a local, not a parameter. -/
def tclassW4 : Tclass :=
  { refWidth := 32, line := 0,
    ctorVars := [{ varType := .localV, isConst := false, sym := "tmp",
                   generated := false, inTclassSignature := true }] }

/-- Concrete state for the C4 counterexample. -/
def stateW4 : State := { tclasses := [tclassW4] }

/-- Counterexample for C4 as stated: a template with no
`inTclassSignature`-flagged constructor parameter (the flagged variable is
a local) for which `deTclassGetDefaultClass` nevertheless returns none. -/
theorem c4_counterexample :
    (∀ v ∈ (getTclass stateW4 0).ctorVars,
      ¬(v.varType = VariableType.parameterV ∧ v.inTclassSignature = true)) ∧
    (getTclass stateW4 0).hasDefaultClass = false ∧
    (deTclassGetDefaultClass stateW4 0).2 = none := by
  decide

/-- Concrete tclass for the C4 witness: one unflagged parameter. -/
def tclassW4b : Tclass :=
  { refWidth := 32, line := 0,
    ctorVars := [{ varType := .parameterV, isConst := false, sym := "a",
                   generated := false }] }

/-- Concrete state for the C4 witness. -/
def stateW4b : State := { tclasses := [tclassW4b] }

/-- Two signatures agree on every `inTclassSignature`-flagged position of
the constructor's leading parameter run: they carry identical datatypes
there (other positions are unconstrained). -/
def flaggedAgree (vars : List Variable) (sig1 sig2 : Signature) : Prop :=
  ∀ i, i < (paramRun vars).length →
    ((paramRun vars).getD i default).inTclassSignature = true →
    deSignatureGetiType sig2 i = deSignatureGetiType sig1 i

/-- A signature position is a member of the type list or the out-of-range
default. -/
theorem getiType_mem_or_default (sig : Signature) (i : Nat) :
    deSignatureGetiType sig i ∈ sig.types ∨
      deSignatureGetiType sig i = Datatype.otherD 0 := by
  unfold deSignatureGetiType
  by_cases h : i < sig.types.length
  · left
    rw [List.getD_eq_getElem sig.types _ h]
    exact List.getElem_mem h
  · right
    exact getD_ge _ _ _ h

/-- `datatypesCompatible` reads the state only through the owner of the
old datatype's class. -/
theorem datatypesCompatible_stable (s s1 : State) (newDatatype oldDatatype : Datatype)
    (h : ∀ cc, oldDatatype = Datatype.classD cc →
      deClassGetTclass s1 cc = deClassGetTclass s cc) :
    datatypesCompatible s1 newDatatype oldDatatype =
      datatypesCompatible s newDatatype oldDatatype := by
  unfold datatypesCompatible
  by_cases he : newDatatype = oldDatatype
  · rw [if_pos he, if_pos he]
  · rw [if_neg he, if_neg he]
    by_cases hc : deDatatypeGetType newDatatype ≠ DatatypeType.tbdclassT ∨
        deDatatypeGetType oldDatatype ≠ DatatypeType.classT
    · rw [if_pos hc, if_pos hc]
    · rw [if_neg hc, if_neg hc]
      push_neg at hc
      obtain ⟨-, hcl⟩ := hc
      cases oldDatatype with
      | classD cc =>
        simp only [deDatatypeGetClass]
        simp only [h cc rfl]
      | uintD w => simp [deDatatypeGetType] at hcl
      | tbdclassD tt => simp [deDatatypeGetType] at hcl
      | tclassD tt => simp [deDatatypeGetType] at hcl
      | tupleD ts => simp [deDatatypeGetType] at hcl
      | otherD tag => simp [deDatatypeGetType] at hcl

/-- The signature walk reads the state only through the owners of classes
referenced by the old signature's datatypes. -/
theorem classSignaturesMatchGo_stable (s s1 : State) (newSignature oldSignature : Signature)
    (hold : ∀ d ∈ oldSignature.types, ∀ cc, d = Datatype.classD cc →
      deClassGetTclass s1 cc = deClassGetTclass s cc) :
    ∀ (vars : List Variable) (x : Nat),
      classSignaturesMatchGo s1 newSignature oldSignature vars x =
        classSignaturesMatchGo s newSignature oldSignature vars x
  | [], x => rfl
  | v :: rest, x => by
    have hcomp : datatypesCompatible s1 (deSignatureGetiType newSignature x)
        (deSignatureGetiType oldSignature x) =
        datatypesCompatible s (deSignatureGetiType newSignature x)
          (deSignatureGetiType oldSignature x) := by
      apply datatypesCompatible_stable
      intro cc hcc
      rcases getiType_mem_or_default oldSignature x with hm | hd
      · exact hold _ hm cc hcc
      · rw [hd] at hcc
        cases hcc
    rw [classSignaturesMatchGo, classSignaturesMatchGo, hcomp,
      classSignaturesMatchGo_stable s s1 newSignature oldSignature hold rest (x + 1)]

/-- Replacing the querying signature by one that agrees on all flagged
positions of the parameter run does not change the walk's verdict. -/
theorem classSignaturesMatchGo_newSig_congr (s : State) (sig1 sig2 oldSignature : Signature)
    (vars : List Variable)
    (hag : flaggedAgree vars sig1 sig2) :
    classSignaturesMatchGo s sig2 oldSignature vars 0 =
      classSignaturesMatchGo s sig1 oldSignature vars 0 := by
  have e1 := classSignaturesMatchGo_characterization s sig1 oldSignature vars 0
  have e2 := classSignaturesMatchGo_characterization s sig2 oldSignature vars 0
  have hiff : classSignaturesMatchGo s sig2 oldSignature vars 0 = true ↔
      classSignaturesMatchGo s sig1 oldSignature vars 0 = true := by
    rw [e1, e2]
    constructor
    · intro h i hi hf
      have := h i hi hf
      rwa [Nat.zero_add, hag i hi hf, ← Nat.zero_add i] at this
    · intro h i hi hf
      have := h i hi hf
      rwa [Nat.zero_add, ← hag i hi hf, ← Nat.zero_add i] at this
  cases hb2 : classSignaturesMatchGo s sig2 oldSignature vars 0 <;>
    cases hb1 : classSignaturesMatchGo s sig1 oldSignature vars 0 <;>
    simp_all

/-- A signature matches any signature agreeing with it on all flagged
positions (in particular itself): identical datatypes are compatible. -/
theorem classSignaturesMatch_agree_true (s : State) (sig1 sig2 : Signature)
    (hag : flaggedAgree (getTclass s sig2.tclass).ctorVars sig1 sig2) :
    classSignaturesMatch s sig2 sig1 = true := by
  rw [classSignaturesMatch]
  rw [classSignaturesMatchGo_characterization]
  intro i hi hf
  rw [Nat.zero_add, hag i hi hf]
  unfold datatypesCompatible
  rw [if_pos rfl]

/-- The scan treats two querying signatures alike when their match verdict
agrees on every founding signature. -/
theorem findExistingClassGo_congr (s : State) (sig1 sig2 : Signature) (tclass : Tclass)
    (hmatch : ∀ fs, classSignaturesMatch s sig2 fs = classSignaturesMatch s sig1 fs) :
    ∀ l : List ClassId,
      findExistingClassGo s sig2 tclass l = findExistingClassGo s sig1 tclass l
  | [] => rfl
  | c :: rest => by
    cases hfs : (getClass s c).firstSignature with
    | none =>
      simp only [findExistingClassGo, hfs]
    | some fs =>
      simp only [findExistingClassGo, hfs, hmatch fs]
      by_cases hm : classSignaturesMatch s sig1 fs = true
      · rw [if_pos hm, if_pos hm]
      · rw [if_neg hm, if_neg hm]
        exact findExistingClassGo_congr s sig1 sig2 tclass hmatch rest

/-- A scan that found nothing rejected every specialization: each one has a
founding signature and it does not match. -/
theorem findExistingClassGo_none (s : State) (signature : Signature) (tclass : Tclass) :
    ∀ l : List ClassId, findExistingClassGo s signature tclass l = .ok none →
      ∀ c ∈ l, ∃ fs, (getClass s c).firstSignature = some fs ∧
        classSignaturesMatch s signature fs = false
  | [], _, c, hc => absurd hc (by simp)
  | c0 :: rest, h, c, hc => by
    cases hfs : (getClass s c0).firstSignature with
    | none =>
      simp only [findExistingClassGo, hfs] at h
      by_cases hd : tclass.hasDefaultClass = true
      · rw [if_pos hd] at h
        simp at h
      · rw [if_neg hd] at h
        simp at h
    | some fs =>
      simp only [findExistingClassGo, hfs] at h
      by_cases hm : classSignaturesMatch s signature fs = true
      · rw [if_pos hm] at h
        simp at h
      · rw [if_neg hm] at h
        rcases List.mem_cons.mp hc with he | hm2
        · subst he
          exact ⟨fs, hfs, Bool.eq_false_iff.mpr hm⟩
        · exact findExistingClassGo_none s signature tclass rest h c hm2

/-- When every class before `c` carries a non-matching founding signature
and `c` carries a matching one, the scan returns `c`. -/
theorem findExistingClassGo_reaches_match (s : State) (signature : Signature)
    (tclass : Tclass) (c : ClassId) (post : List ClassId) (fs0 : Signature)
    (hc : (getClass s c).firstSignature = some fs0)
    (hm : classSignaturesMatch s signature fs0 = true) :
    ∀ pre : List ClassId,
      (∀ d ∈ pre, ∃ fs, (getClass s d).firstSignature = some fs ∧
          classSignaturesMatch s signature fs = false) →
      findExistingClassGo s signature tclass (pre ++ c :: post) = .ok (some c)
  | [], _ => by
    rw [List.nil_append]
    simp [findExistingClassGo, hc, hm]
  | d :: pre, hpre => by
    obtain ⟨fs, hfs, hmatch⟩ := hpre d (by simp)
    rw [List.cons_append]
    simp only [findExistingClassGo, hfs, hmatch]
    exact findExistingClassGo_reaches_match s signature tclass c post fs0 hc hm pre
      (fun e he => hpre e (by simp [he]))

/-- Every class datatype occurring in a stored founding signature
references an allocated class. -/
def FoundingRefsBounded (s : State) : Prop :=
  ∀ c, c < s.classes.length →
    ∀ fs, (getClass s c).firstSignature = some fs →
      ∀ d ∈ fs.types, ∀ cc, d = Datatype.classD cc → cc < s.classes.length

/-- C1: resolution proceeds in exactly three steps — return the
signature's cached class, otherwise the first specialization in creation
order whose founding signature matches, otherwise a freshly allocated
specialization — and consequently two resolutions against one template
with signatures carrying identical datatypes at every
`inTclassSignature`-flagged position return the same class handle,
regardless of other argument differences. -/
theorem c1_resolve_three_steps_memoization :
    (∀ (s : State) (t : TclassId) (sig : Signature) (c : ClassId),
      sig.cachedClass = some c → deClassCreate s t sig = .ok (s, c)) ∧
    (∀ (s : State) (t : TclassId) (sig : Signature) (c : ClassId),
      sig.cachedClass = none → findExistingClass s sig = .ok (some c) →
      deClassCreate s t sig = .ok (s, c)) ∧
    (∀ (s : State) (t : TclassId) (sig : Signature),
      sig.cachedClass = none → findExistingClass s sig = .ok none →
      deClassCreate s t sig = .ok (classCreate s t)) ∧
    (∀ (s : State) (t : TclassId) (sig1 sig2 : Signature) (s1 : State)
      (sig1x : Signature) (c1 : ClassId),
      t < s.tclasses.length →
      FoundingRefsBounded s →
      (∀ c ∈ (getTclass s t).classes, c < s.classes.length) →
      sig1.tclass = t → sig2.tclass = t →
      sig1.cachedClass = none → sig2.cachedClass = none →
      flaggedAgree (getTclass s t).ctorVars sig1 sig2 →
      resolveOrCreateClass s t sig1 = .ok (s1, sig1x, c1) →
      ∃ s2 sig2x, resolveOrCreateClass s1 t sig2 = .ok (s2, sig2x, c1)) := by
  refine ⟨?_, ?_, ?_, ?_⟩
  · intro s t sig c hcache
    unfold deClassCreate
    simp only [hcache]
  · intro s t sig c hcache hfind
    unfold deClassCreate
    simp only [hcache, hfind]
  · intro s t sig hcache hfind
    unfold deClassCreate
    simp only [hcache, hfind]
  · intro s t sig1 sig2 s1 sig1x c1 ht hwf hbl ht1 ht2 hc1 hc2 hag h1
    have hm : ∀ fs, classSignaturesMatch s sig2 fs = classSignaturesMatch s sig1 fs := by
      intro fs
      rw [classSignaturesMatch, classSignaturesMatch, ht1, ht2]
      exact classSignaturesMatchGo_newSig_congr s sig1 sig2 fs (getTclass s t).ctorVars hag
    unfold resolveOrCreateClass deClassCreate at h1
    cases hf1 : findExistingClass s sig1 with
    | error e =>
      simp only [hc1, hf1] at h1
      exact Except.noConfusion h1
    | ok o =>
      cases o with
      | some c =>
        simp only [hc1, hf1, lt_self_iff_false, if_false, Except.ok.injEq,
          Prod.mk.injEq] at h1
        obtain ⟨hs1, -, hcc⟩ := h1
        subst hs1
        subst hcc
        have hfind2 : findExistingClass s sig2 = .ok (some c) := by
          rw [findExistingClass, ht2]
          rw [findExistingClassGo_congr s sig1 sig2 _ hm]
          have hx := hf1
          rw [findExistingClass, ht1] at hx
          exact hx
        refine ⟨s, { sig2 with cachedClass := some c }, ?_⟩
        unfold resolveOrCreateClass deClassCreate
        simp only [hc2, hfind2, lt_self_iff_false, if_false, if_true]
      | none =>
        simp only [hc1, hf1, classCreate_snd, classCreate_classes_length,
          Nat.lt_succ_self, if_true, Except.ok.injEq, Prod.mk.injEq] at h1
        obtain ⟨hs1, -, hcc⟩ := h1
        subst hs1
        subst hcc
        have hvars1 : (getTclass (setClassFoundingSignature (classCreate s t).1
            s.classes.length sig1) t).ctorVars = (getTclass s t).ctorVars := by
          rw [getTclass_setFounding, getTclass_classCreate_self s t ht]
          rfl
        have hclasses1 : (getTclass (setClassFoundingSignature (classCreate s t).1
            s.classes.length sig1) t).classes =
            (getTclass s t).classes ++ [s.classes.length] := by
          rw [getTclass_setFounding, getTclass_classCreate_self s t ht]
          rfl
        have hgetcid : (getClass (setClassFoundingSignature (classCreate s t).1
            s.classes.length sig1) s.classes.length).firstSignature = some sig1 := by
          rw [getClass_setFounding_self _ _ _
            (by rw [classCreate_classes_length]; exact Nat.lt_succ_self _)]
        have howner : ∀ cc, cc < s.classes.length →
            deClassGetTclass (setClassFoundingSignature (classCreate s t).1
              s.classes.length sig1) cc = deClassGetTclass s cc := by
          intro cc hcc2
          rw [deClassGetTclass, deClassGetTclass,
            getClass_setFounding_ne _ _ _ _ (Nat.ne_of_lt hcc2),
            getClass_classCreate_lt _ _ _ hcc2]
        have holdstable : ∀ c2 ∈ (getTclass s t).classes,
            getClass (setClassFoundingSignature (classCreate s t).1
              s.classes.length sig1) c2 = getClass s c2 := by
          intro c2 hcmem
          have hcb := hbl c2 hcmem
          rw [getClass_setFounding_ne _ _ _ _ (Nat.ne_of_lt hcb),
            getClass_classCreate_lt _ _ _ hcb]
        have hnone1 := findExistingClassGo_none s sig1 (getTclass s t)
          (getTclass s t).classes (by
            have := hf1
            rw [findExistingClass, ht1] at this
            exact this)
        have hpre : ∀ d ∈ (getTclass s t).classes,
            ∃ fs, (getClass (setClassFoundingSignature (classCreate s t).1
                s.classes.length sig1) d).firstSignature = some fs ∧
              classSignaturesMatch (setClassFoundingSignature (classCreate s t).1
                s.classes.length sig1) sig2 fs = false := by
          intro d hd
          obtain ⟨fs, hfs, hmf⟩ := hnone1 d hd
          refine ⟨fs, by rw [holdstable d hd]; exact hfs, ?_⟩
          have hstab : classSignaturesMatch (setClassFoundingSignature (classCreate s t).1
              s.classes.length sig1) sig2 fs = classSignaturesMatch s sig2 fs := by
            rw [classSignaturesMatch, classSignaturesMatch, ht2, hvars1]
            apply classSignaturesMatchGo_stable
            intro dd hdd cc hcc2
            exact howner cc (hwf d (hbl d hd) fs hfs dd hdd cc hcc2)
          rw [hstab, hm fs]
          exact hmf
        have hmcid : classSignaturesMatch (setClassFoundingSignature (classCreate s t).1
            s.classes.length sig1) sig2 sig1 = true := by
          apply classSignaturesMatch_agree_true
          rw [ht2, hvars1]
          exact hag
        have hfind2 : findExistingClass (setClassFoundingSignature (classCreate s t).1
            s.classes.length sig1) sig2 = .ok (some s.classes.length) := by
          rw [findExistingClass, ht2, hclasses1]
          exact findExistingClassGo_reaches_match _ sig2 _ s.classes.length [] sig1
            hgetcid hmcid (getTclass s t).classes hpre
        refine ⟨setClassFoundingSignature (classCreate s t).1 s.classes.length sig1,
          { sig2 with cachedClass := some s.classes.length }, ?_⟩
        unfold resolveOrCreateClass deClassCreate
        simp only [hc2, hfind2, lt_self_iff_false, if_false, if_true]

/-- Concrete tclass for the C1 witness: first parameter flagged
`inTclassSignature`, second parameter unflagged. -/
def tclassW1 : Tclass :=
  { refWidth := 32, line := 0,
    ctorVars := [
      { varType := .parameterV, isConst := false, sym := "a", generated := false,
        inTclassSignature := true },
      { varType := .parameterV, isConst := false, sym := "b", generated := false }] }

/-- Concrete state for the C1 witness. -/
def stateW1 : State := { tclasses := [tclassW1] }

/-- First resolution signature for the C1 witness. -/
def sigW1a : Signature := { tclass := 0, types := [Datatype.uintD 8, Datatype.uintD 16] }

/-- Second resolution signature for the C1 witness: identical datatype at
the flagged position, different at the unflagged one. -/
def sigW1b : Signature := { tclass := 0, types := [Datatype.uintD 8, Datatype.uintD 64] }

/-- Witness for C1: after resolving `sigW1a` (creating class 0), resolving
`sigW1b` — which differs only at an unflagged position — returns the same
class 0. -/
theorem c1_witness :
    (0 < stateW1.tclasses.length ∧ FoundingRefsBounded stateW1 ∧
      (∀ c ∈ (getTclass stateW1 0).classes, c < stateW1.classes.length) ∧
      sigW1a.tclass = 0 ∧ sigW1b.tclass = 0 ∧
      sigW1a.cachedClass = none ∧ sigW1b.cachedClass = none ∧
      flaggedAgree (getTclass stateW1 0).ctorVars sigW1a sigW1b ∧
      resolveOrCreateClass stateW1 0 sigW1a =
        .ok (setClassFoundingSignature (classCreate stateW1 0).1 0 sigW1a,
          { sigW1a with cachedClass := some 0 }, 0)) ∧
    (∃ s2 sig2x, resolveOrCreateClass
        (setClassFoundingSignature (classCreate stateW1 0).1 0 sigW1a) 0 sigW1b =
      .ok (s2, sig2x, 0)) :=
  ⟨⟨by decide, by intro c hc; simp [stateW1] at hc, by decide, rfl, rfl, rfl, rfl,
      by unfold flaggedAgree paramRun; decide, rfl⟩,
    c1_resolve_three_steps_memoization.2.2.2 stateW1 0 sigW1a sigW1b
      (setClassFoundingSignature (classCreate stateW1 0).1 0 sigW1a)
      { sigW1a with cachedClass := some 0 } 0
      (by decide) (by intro c hc; simp [stateW1] at hc) (by decide) rfl rfl rfl rfl
      (by unfold flaggedAgree paramRun; decide) rfl⟩

/-- Witness for C2 at a concrete pair of signatures differing only at an
unflagged parameter position: they match. -/
theorem c2_witness : classSignaturesMatch stateW1 sigW1a sigW1b = true :=
  (c2_signature_match_rule stateW1 sigW1a sigW1b).1.mpr (by decide)

/-- Witness for C3: a placeholder new datatype is compatible with a
concrete class of the same template. -/
theorem c3_witness :
    datatypesCompatible stateW10 (Datatype.tbdclassD 0) (Datatype.classD 0) = true :=
  (c3_datatypes_compatible stateW10 (Datatype.tbdclassD 0) (Datatype.classD 0)).1.mpr
    (Or.inr ⟨0, 0, rfl, rfl, by decide⟩)

/-- Concrete member list for the C7/C8 witnesses: a class-referencing
member `r` followed by a plain member `n`. -/
def varsW7 : List Variable :=
  [{ varType := .localV, isConst := false, sym := "r", generated := false,
     datatype := Datatype.classD 0 },
   { varType := .localV, isConst := false, sym := "n", generated := false,
     datatype := Datatype.uintD 8 }]

/-- Witness for C7: the format string of a two-member class. -/
theorem c7_witness :
    findObjectPrintFormat (fun _ => "%x")
      (buildClassTupleExpression varsW7 (deIdentExpressionCreate "self" 0)) =
      "\x7br = %x, n = %x\x7d" := by
  rw [c7_tostring_format_string]
  rfl

/-- Witness for C8: the class-referencing member is cast, the plain member
is not. -/
theorem c8_witness :
    ((buildClassTupleExpression varsW7 (deIdentExpressionCreate "self" 0)).children.map
      (fun e => e.ty)) = [ExprType.castE, ExprType.dotE] := by
  rw [c8_class_members_cast_to_u32]
  rfl

/-- Witness for C9 at a concrete class. -/
theorem c9_witness : (deGenerateDefaultDumpMethod stateW10 0).name = "dump" :=
  (c9_dump_prints_tostring_newline stateW10 0).1

/-- Witness for C4 at a concrete template with no flagged variables. -/
theorem c4_witness :
    ((getTclass stateW4b 0).hasDefaultClass = false ∧ 0 < stateW4b.tclasses.length ∧
      ∀ v ∈ (getTclass stateW4b 0).ctorVars, v.inTclassSignature = false) ∧
    (∃ c, (deTclassGetDefaultClass stateW4b 0).2 = some c ∧
      deTclassGetDefaultClass (deTclassGetDefaultClass stateW4b 0).1 0 =
        ((deTclassGetDefaultClass stateW4b 0).1, some c) ∧
      ∀ ops, (deTclassGetDefaultClass
          (runOps (deTclassGetDefaultClass stateW4b 0).1 ops) 0).2 = some c) :=
  ⟨⟨by decide, by decide, by decide⟩,
    (c4_default_class_idempotent stateW4b 0 (by decide)).2 (by decide) (by decide)⟩

end Rune
